import Mathlib

/-!
Shallow embedding of the Scaleway serverless Ansible modules
(`scaleway_container.py`, `scaleway_function_namespace.py`,
`scaleway_container_registry_info.py`, `scaleway_function_namespace_info.py`)
from `plugins/modules/cloud/scaleway/`.

Each module's strategy function is embedded as a pure Lean function from an
HTTP-response oracle (the `Api` record) to an outcome together with the ordered
trace of side effects (HTTP calls, waits, warnings) it performs.  Python
dictionaries and JSON bodies are modelled by the `Value` type; Python dict
construction with duplicate keys keeps the last binding, which `pyDictLast`
reflects.  A strategy returns `none` where the Python would raise an uncaught
exception (for example a `KeyError` on a malformed response body); theorems
hypothesise well-formed bodies, so that branch is never the subject of a claim.

Helpers imported from the shared `module_utils/scaleway` module (code of this
repository that is not among the four files above) are modelled from the spec
and marked as such in their doc comments.
-/

/-- A Python/JSON value: `None`, booleans, integers, strings, lists and
string-keyed dictionaries (the only dict keys the modules build or read are
strings). -/
inductive Value where
  | null : Value
  | bool : Bool → Value
  | int : Int → Value
  | str : String → Value
  | list : List Value → Value
  | dict : List (String × Value) → Value

mutual

def Value.decEq : (a b : Value) → Decidable (a = b)
  | .null, .null => .isTrue rfl
  | .bool a, .bool b =>
      if h : a = b then .isTrue (h ▸ rfl)
      else .isFalse (fun hh => h (Value.bool.inj hh))
  | .int a, .int b =>
      if h : a = b then .isTrue (h ▸ rfl)
      else .isFalse (fun hh => h (Value.int.inj hh))
  | .str a, .str b =>
      if h : a = b then .isTrue (h ▸ rfl)
      else .isFalse (fun hh => h (Value.str.inj hh))
  | .list xs, .list ys =>
      match Value.decEqList xs ys with
      | .isTrue h => .isTrue (h ▸ rfl)
      | .isFalse h => .isFalse (fun hh => h (Value.list.inj hh))
  | .dict xs, .dict ys =>
      match Value.decEqPairs xs ys with
      | .isTrue h => .isTrue (h ▸ rfl)
      | .isFalse h => .isFalse (fun hh => h (Value.dict.inj hh))
  | .null, .bool _ => .isFalse (fun h => Value.noConfusion h)
  | .null, .int _ => .isFalse (fun h => Value.noConfusion h)
  | .null, .str _ => .isFalse (fun h => Value.noConfusion h)
  | .null, .list _ => .isFalse (fun h => Value.noConfusion h)
  | .null, .dict _ => .isFalse (fun h => Value.noConfusion h)
  | .bool _, .null => .isFalse (fun h => Value.noConfusion h)
  | .bool _, .int _ => .isFalse (fun h => Value.noConfusion h)
  | .bool _, .str _ => .isFalse (fun h => Value.noConfusion h)
  | .bool _, .list _ => .isFalse (fun h => Value.noConfusion h)
  | .bool _, .dict _ => .isFalse (fun h => Value.noConfusion h)
  | .int _, .null => .isFalse (fun h => Value.noConfusion h)
  | .int _, .bool _ => .isFalse (fun h => Value.noConfusion h)
  | .int _, .str _ => .isFalse (fun h => Value.noConfusion h)
  | .int _, .list _ => .isFalse (fun h => Value.noConfusion h)
  | .int _, .dict _ => .isFalse (fun h => Value.noConfusion h)
  | .str _, .null => .isFalse (fun h => Value.noConfusion h)
  | .str _, .bool _ => .isFalse (fun h => Value.noConfusion h)
  | .str _, .int _ => .isFalse (fun h => Value.noConfusion h)
  | .str _, .list _ => .isFalse (fun h => Value.noConfusion h)
  | .str _, .dict _ => .isFalse (fun h => Value.noConfusion h)
  | .list _, .null => .isFalse (fun h => Value.noConfusion h)
  | .list _, .bool _ => .isFalse (fun h => Value.noConfusion h)
  | .list _, .int _ => .isFalse (fun h => Value.noConfusion h)
  | .list _, .str _ => .isFalse (fun h => Value.noConfusion h)
  | .list _, .dict _ => .isFalse (fun h => Value.noConfusion h)
  | .dict _, .null => .isFalse (fun h => Value.noConfusion h)
  | .dict _, .bool _ => .isFalse (fun h => Value.noConfusion h)
  | .dict _, .int _ => .isFalse (fun h => Value.noConfusion h)
  | .dict _, .str _ => .isFalse (fun h => Value.noConfusion h)
  | .dict _, .list _ => .isFalse (fun h => Value.noConfusion h)

def Value.decEqList : (a b : List Value) → Decidable (a = b)
  | [], [] => .isTrue rfl
  | [], _ :: _ => .isFalse (fun h => List.noConfusion h)
  | _ :: _, [] => .isFalse (fun h => List.noConfusion h)
  | x :: xs, y :: ys =>
      match Value.decEq x y, Value.decEqList xs ys with
      | .isTrue h1, .isTrue h2 => .isTrue (by rw [h1, h2])
      | .isFalse h1, _ => .isFalse (fun hh => h1 (List.cons.inj hh).1)
      | _, .isFalse h2 => .isFalse (fun hh => h2 (List.cons.inj hh).2)

def Value.decEqPairs : (a b : List (String × Value)) → Decidable (a = b)
  | [], [] => .isTrue rfl
  | [], _ :: _ => .isFalse (fun h => List.noConfusion h)
  | _ :: _, [] => .isFalse (fun h => List.noConfusion h)
  | (k1, v1) :: xs, (k2, v2) :: ys =>
      match String.decEq k1 k2, Value.decEq v1 v2, Value.decEqPairs xs ys with
      | .isTrue h1, .isTrue h2, .isTrue h3 => .isTrue (by rw [h1, h2, h3])
      | .isFalse h1, _, _ =>
          .isFalse (fun hh => h1 (congrArg Prod.fst (List.cons.inj hh).1))
      | _, .isFalse h2, _ =>
          .isFalse (fun hh => h2 (congrArg Prod.snd (List.cons.inj hh).1))
      | _, _, .isFalse h3 => .isFalse (fun hh => h3 (List.cons.inj hh).2)

end

instance : DecidableEq Value := Value.decEq

/-- Python `str()` of a value, as used by `%s` / `format` interpolation in the
modules' error messages.  Atoms are rendered faithfully; composite values only
occur inside failure messages whose exact text no claim depends on, so they are
abbreviated. -/
def Value.pyStr : Value → String
  | .null => "None"
  | .bool true => "True"
  | .bool false => "False"
  | .int n => toString n
  | .str s => s
  | .list _ => "[...]"
  | .dict _ => "\x7b...\x7d"

/-- Python `d[k]` on a dict value: `none` when the key is missing or the value is not
a dict (the Python would raise). -/
def Value.get? : Value → String → Option Value
  | .dict kvs, k => (kvs.find? (fun p => p.1 == k)).map (·.2)
  | _, _ => none

/-- Total variant of `Value.get?` used by the spec-modelled diff helper:
a missing attribute reads as `None`. -/
def Value.getD (v : Value) (k : String) : Value :=
  (v.get? k).getD .null

/-- Lookup in a payload given as an association list, `None` when absent. -/
def lookupD (kvs : List (String × Value)) (k : String) : Value :=
  ((kvs.find? (fun p => p.1 == k)).map (·.2)).getD .null

/-- Python `container[attr] = v` on a dict given as an association list:
overwrite the existing binding, or append a new one. -/
def dictSet (kvs : List (String × Value)) (k : String) (v : Value) :
    List (String × Value) :=
  if kvs.any (fun p => p.1 == k) then
    kvs.map (fun p => if p.1 == k then (k, v) else p)
  else
    kvs ++ [(k, v)]

/-- The name-keyed lookup `dict((fn["name"], fn) for fn in fn_list)` built by
every strategy: pair each listed resource with its `"name"` value.  `none` when
some resource has no `"name"` key (the Python would raise). -/
def buildLookup : List Value → Option (List (Value × Value))
  | [] => some []
  | fn :: rest =>
      match fn.get? "name", buildLookup rest with
      | some n, some l => some ((n, fn) :: l)
      | _, _ => none

/-- Lookup in a Python dict built from a pair sequence: with duplicate keys the
last binding wins, so search the pairs from the end. -/
def pyDictLast (pairs : List (Value × Value)) (k : Value) : Option Value :=
  (pairs.reverse.find? (fun p => p.1 == k)).map (·.2)

/-- An HTTP response as seen through the shared client: `ok` is "status is
2xx", `info_msg` is `response.info['msg']`, `json` the decoded body. -/
structure Response where
  ok : Bool
  status_code : Int
  info_msg : String
  json : Value

/-- The module's handle on the outside world: the endpoint path `api_path` set
by `core`, the host's check-mode flag, and one response oracle per HTTP verb
(the response the remote API would give to that request). -/
structure Api where
  api_path : String
  check_mode : Bool
  getResp : String → Response
  postResp : String → Value → Response
  patchResp : String → Value → Response
  deleteResp : String → Response

/-- One observable side effect of a strategy, in program order: an HTTP call,
a call of the shared wait-for-stable-state helper, or an `api.warn`. -/
inductive Event where
  | get : String → Event
  | post : String → Value → Event
  | patch : String → Value → Event
  | delete : String → Event
  | wait : Value → Bool → Event
  | warn : Value → Event
deriving DecidableEq

/-- Holds exactly for the mutating HTTP verbs POST, PATCH and DELETE. -/
def Event.isMutating : Event → Bool
  | .post _ _ => true
  | .patch _ _ => true
  | .delete _ => true
  | _ => false

/-- The request path of an HTTP event, `none` for waits and warnings. -/
def Event.path? : Event → Option String
  | .get p => some p
  | .post p _ => some p
  | .patch p _ => some p
  | .delete p => some p
  | .wait _ _ => none
  | .warn _ => none

/-- How a strategy ends: `failJson` aborts the module with a message,
`ret changed summary` is the `(changed, summary)` pair handed back to `core`. -/
inductive Outcome where
  | failJson : String → Outcome
  | ret : Bool → Value → Outcome
deriving DecidableEq

/-- What `core` hands back to the host: `exitJson changed key value` for
`module.exit_json(changed=..., key=value)`, or a fatal `failJson`. -/
inductive ModuleResult where
  | exitJson : Bool → String → Value → ModuleResult
  | failJson : String → ModuleResult
deriving DecidableEq

/-- A `SENSITIVE_ATTRIBUTES` constant as Python sees it: either a plain
parenthesized string (no trailing comma, as in `scaleway_container.py` and the
two info modules) or a genuine tuple of strings (as in
`scaleway_function_namespace.py`). -/
inductive StrIterable where
  | str : String → StrIterable
  | tup : List String → StrIterable
deriving DecidableEq

/-- The element sequence Python iteration yields: iterating a plain string
yields its one-character substrings, iterating a tuple yields its elements. -/
def StrIterable.elems : StrIterable → List String
  | .str s => s.toList.map (fun c => String.mk [c])
  | .tup es => es

/-- The redaction marker, as shown in the modules' `RETURN` documentation. -/
def sensitiveValueMarker : Value := .str "SENSITIVE_VALUE"

/-- Modelled from the spec: `filter_sensitive_attributes` from the shared
`module_utils/scaleway` module (code of this repository, not under `src/`).
Per the spec, secret-valued attributes are "replaced with a redaction marker on
output": for each attribute name the iterable yields, the corresponding key of
the resource description is assigned the marker.  `none` when the description
is not a dict (the Python would raise). -/
def filter_sensitive_attributes (container : Value) (attributes : StrIterable) :
    Option Value :=
  match container with
  | .dict kvs =>
      some (.dict (attributes.elems.foldl
        (fun acc attr => dictSet acc attr sensitiveValueMarker) kvs))
  | _ => none

/-- Modelled from the spec: `resource_attributes_should_be_changed` from the
shared `module_utils/scaleway` module (code of this repository, not under
`src/`).  Per the spec it compares desired vs. observed resource attributes for
the minimal converging call: if some verifiable mutable attribute is wished
(non-`None`) and differs from the observed resource, the patch payload carries
every mutable attribute of the wished payload (so secrets are sent but never by
themselves trigger a change); otherwise the patch payload is empty.  A missing
attribute reads as `None`. -/
def resource_attributes_should_be_changed (target : Value)
    (wished : List (String × Value))
    (verifiable_mutable_attributes mutable_attributes : List String) :
    List (String × Value) :=
  let diff := verifiable_mutable_attributes.filter (fun attr =>
    lookupD wished attr != Value.null && target.getD attr != lookupD wished attr)
  if diff.isEmpty then []
  else mutable_attributes.map (fun attr => (attr, lookupD wished attr))

namespace scaleway_container

def STABLE_STATES : List String := ["ready", "created", "absent"]

def VERIFIABLE_MUTABLE_ATTRIBUTES : List String :=
  ["description", "min_scale", "max_scale", "environment_variables",
   "memory_limit", "timeout", "privacy", "registry_image", "max_concurrency",
   "protocol", "port"]

def MUTABLE_ATTRIBUTES : List String :=
  VERIFIABLE_MUTABLE_ATTRIBUTES ++ ["secret_environment_variables"]

/-- The constant `SENSITIVE_ATTRIBUTES = ("secret_environment_variables")` — a plain
parenthesized string, not a tuple: there is no trailing comma in the source. -/
def SENSITIVE_ATTRIBUTES : StrIterable := .str "secret_environment_variables"

/-- The `wished_container` dict that `core` builds from `module.params`.
Fields declared `type=str` in the argument spec are `String`;
`secret_environment_variables` is declared `type=dict` (its `.items()` is
taken), the remaining optional parameters may be `None` and stay `Value`. -/
structure Params where
  state : String
  namespace_id : Value
  name : String
  description : Value
  min_scale : Value
  max_scale : Value
  environment_variables : Value
  secret_environment_variables : List (String × Value)
  memory_limit : Value
  timeout : Value
  privacy : Value
  registry_image : Value
  max_concurrency : Value
  protocol : Value
  port : Value
  redeploy : Value
  region : String

/-- Function `payload_from_wished_cn`: the creation/update payload dict, in the key
order of the source. -/
def payload_from_wished_cn (wished_cn : Params) : List (String × Value) :=
  [("namespace_id", wished_cn.namespace_id),
   ("name", .str wished_cn.name),
   ("description", wished_cn.description),
   ("min_scale", wished_cn.min_scale),
   ("max_scale", wished_cn.max_scale),
   ("environment_variables", wished_cn.environment_variables),
   ("secret_environment_variables",
     .list (wished_cn.secret_environment_variables.map
       (fun kv => .dict [("key", .str kv.1), ("value", kv.2)]))),
   ("memory_limit", wished_cn.memory_limit),
   ("timeout", wished_cn.timeout),
   ("privacy", wished_cn.privacy),
   ("registry_image", wished_cn.registry_image),
   ("max_concurrency", wished_cn.max_concurrency),
   ("protocol", wished_cn.protocol),
   ("port", wished_cn.port),
   ("redeploy", wished_cn.redeploy)]

/-- Function `absent_strategy` of `scaleway_container.py`: list, look the name up,
short-circuit in check mode, otherwise wait, DELETE, wait again. -/
def absent_strategy (api : Api) (wished_cn : Params) :
    Option (Outcome × List Event) :=
  let response := api.getResp api.api_path
  if !response.ok then
    match response.json.get? "message" with
    | some m =>
        some (.failJson ("Error getting containers [" ++
            toString response.status_code ++ ": " ++ m.pyStr ++ "]"),
          [.get api.api_path])
    | none => none
  else
    match response.json.get? "containers" with
    | some (.list cn_list) =>
        match buildLookup cn_list with
        | some cn_lookup =>
            match pyDictLast cn_lookup (.str wished_cn.name) with
            | none => some (.ret false (.dict []), [.get api.api_path])
            | some target_cn =>
                if api.check_mode then
                  some (.ret true
                      (.dict [("status", .str "Container would be destroyed")]),
                    [.get api.api_path])
                else
                  match target_cn.get? "id" with
                  | some idv =>
                      let delPath := api.api_path ++ "/" ++ idv.pyStr
                      let delResp := api.deleteResp delPath
                      if !delResp.ok then
                        some (.failJson ("Error deleting container [" ++
                            toString delResp.status_code ++ ": " ++
                            delResp.json.pyStr ++ "]"),
                          [.get api.api_path, .wait target_cn true,
                           .delete delPath])
                      else
                        some (.ret true delResp.json,
                          [.get api.api_path, .wait target_cn true,
                           .delete delPath, .wait target_cn false])
                  | none => none
        | none => none
    | _ => none

/-- Function `present_strategy` of `scaleway_container.py`: list, look the name up;
create (minus the `redeploy` key) when absent, diff-and-patch when present;
check mode short-circuits before either mutation; after a successful create or
update, wait and re-read. -/
def present_strategy (api : Api) (wished_cn : Params) :
    Option (Outcome × List Event) :=
  let response := api.getResp api.api_path
  if !response.ok then
    match response.json.get? "message" with
    | some m =>
        some (.failJson ("Error getting containers [" ++
            toString response.status_code ++ ": " ++ m.pyStr ++ "]"),
          [.get api.api_path])
    | none => none
  else
    match response.json.get? "containers" with
    | some (.list cn_list) =>
        match buildLookup cn_list with
        | some cn_lookup =>
            let playload_cn := payload_from_wished_cn wished_cn
            match pyDictLast cn_lookup (.str wished_cn.name) with
            | none =>
                if api.check_mode then
                  some (.ret true
                      (.dict [("status", .str "A container would be created.")]),
                    [.get api.api_path])
                else
                  -- Creation doesn't support the `redeploy` parameter
                  let playload_cn :=
                    playload_cn.filter (fun p => p.1 != "redeploy")
                  let creation_response :=
                    api.postResp api.api_path (.dict playload_cn)
                  if !creation_response.ok then
                    match creation_response.json.get? "message" with
                    | some m =>
                        some (.failJson ("Error during container creation: " ++
                            creation_response.info_msg ++ ": '" ++ m.pyStr ++
                            "' (" ++ creation_response.json.pyStr ++ ")"),
                          [.get api.api_path, .warn (.dict playload_cn),
                           .post api.api_path (.dict playload_cn)])
                    | none => none
                  else
                    match creation_response.json.get? "id" with
                    | some idv =>
                        let readPath := api.api_path ++ "/" ++ idv.pyStr
                        let response2 := api.getResp readPath
                        some (.ret true response2.json,
                          [.get api.api_path, .warn (.dict playload_cn),
                           .post api.api_path (.dict playload_cn),
                           .wait creation_response.json false, .get readPath])
                    | none => none
            | some target_cn =>
                let patch_payload := resource_attributes_should_be_changed
                  target_cn playload_cn VERIFIABLE_MUTABLE_ATTRIBUTES
                  MUTABLE_ATTRIBUTES
                if patch_payload.isEmpty then
                  some (.ret false target_cn, [.get api.api_path])
                else if api.check_mode then
                  some (.ret true
                      (.dict [("status",
                        .str "Container attributes would be changed.")]),
                    [.get api.api_path])
                else
                  match target_cn.get? "id" with
                  | some idv =>
                      let patchPath := api.api_path ++ "/" ++ idv.pyStr
                      let cn_patch_response :=
                        api.patchResp patchPath (.dict patch_payload)
                      if !cn_patch_response.ok then
                        match cn_patch_response.json.get? "message" with
                        | some m =>
                            some (.failJson
                                ("Error during container attributes update: [" ++
                                 toString cn_patch_response.status_code ++
                                 ": " ++ m.pyStr ++ "]"),
                              [.get api.api_path,
                               .patch patchPath (.dict patch_payload)])
                        | none => none
                      else
                        let response2 := api.getResp patchPath
                        some (.ret true response2.json,
                          [.get api.api_path,
                           .patch patchPath (.dict patch_payload),
                           .wait target_cn false, .get patchPath])
                  | none => none
        | none => none
    | _ => none

/-- The endpoint path `core` configures:
`"containers/v1beta1/regions/%s/containers" % region`. -/
def api_path (region : String) : String :=
  "containers/v1beta1/regions/" ++ region ++ "/containers"

end scaleway_container

/-- The response oracles of an `Api`, before a module's `core` fixes the
endpoint path and check-mode flag. -/
structure Backend where
  getResp : String → Response
  postResp : String → Value → Response
  patchResp : String → Value → Response
  deleteResp : String → Response

/-- Package a backend as the `Api` object a module's `core` builds. -/
def Backend.toApi (b : Backend) (path : String) (check_mode : Bool) : Api :=
  { api_path := path, check_mode := check_mode, getResp := b.getResp,
    postResp := b.postResp, patchResp := b.patchResp,
    deleteResp := b.deleteResp }

namespace scaleway_container

/-- Function `core` of `scaleway_container.py`: build the api with the regional path,
dispatch on `state`, and exit with the redacted summary.  A `state` outside
the argument-spec choices (`choices=['absent', 'present']`) cannot occur and
maps to `none`. -/
def core (b : Backend) (check_mode : Bool) (params : Params) :
    Option (ModuleResult × List Event) :=
  let api := b.toApi (api_path params.region) check_mode
  let strat :=
    if params.state = "present" then some (present_strategy api params)
    else if params.state = "absent" then some (absent_strategy api params)
    else none
  match strat with
  | none => none
  | some none => none
  | some (some (.failJson msg, trace)) => some (.failJson msg, trace)
  | some (some (.ret changed summary, trace)) =>
      match filter_sensitive_attributes summary SENSITIVE_ATTRIBUTES with
      | some filtered => some (.exitJson changed "container" filtered, trace)
      | none => none

end scaleway_container

/-- Modelled from the spec: `fetch_all_resources` from the shared
`module_utils/scaleway` module (code of this repository, not under `src/`).
Per the spec it lists the existing resources at the module's endpoint and
returns the list found under `resource_key`; a non-2xx response is surfaced
immediately as a fatal module failure with a descriptive message.  The one GET
it issues is the `Event.get api.api_path` its caller records.  `none` when a
2xx body lacks the key (the Python would raise). -/
def fetch_all_resources (api : Api) (resource_key : String) :
    Option (Except String (List Value)) :=
  let response := api.getResp api.api_path
  if !response.ok then
    some (.error ("Error getting " ++ resource_key ++ " [" ++
      toString response.status_code ++ "]"))
  else
    match response.json.get? resource_key with
    | some (.list xs) => some (.ok xs)
    | _ => none

namespace scaleway_function_namespace

def STABLE_STATES : List String := ["ready", "absent"]

def VERIFIABLE_MUTABLE_ATTRIBUTES : List String :=
  ["description", "environment_variables"]

def MUTABLE_ATTRIBUTES : List String :=
  VERIFIABLE_MUTABLE_ATTRIBUTES ++ ["secret_environment_variables"]

/-- The constant `SENSITIVE_ATTRIBUTES = ("secret_environment_variables",)` — here the
trailing comma is present, so this constant is a genuine one-element tuple. -/
def SENSITIVE_ATTRIBUTES : StrIterable := .tup ["secret_environment_variables"]

/-- The `wished_function_namespace` dict that `core` builds from
`module.params`. -/
structure Params where
  state : String
  project_id : Value
  name : String
  description : Value
  environment_variables : Value
  secret_environment_variables : List (String × Value)
  region : String

/-- Function `payload_from_wished_fn`: the creation payload dict, in the key order of
the source. -/
def payload_from_wished_fn (wished_fn : Params) : List (String × Value) :=
  [("project_id", wished_fn.project_id),
   ("name", .str wished_fn.name),
   ("description", wished_fn.description),
   ("environment_variables", wished_fn.environment_variables),
   ("secret_environment_variables",
     .list (wished_fn.secret_environment_variables.map
       (fun kv => .dict [("key", .str kv.1), ("value", kv.2)])))]

/-- Function `absent_strategy` of `scaleway_function_namespace.py`: list via
`fetch_all_resources`, look the name up, short-circuit in check mode,
otherwise wait, DELETE, wait again. -/
def absent_strategy (api : Api) (wished_fn : Params) :
    Option (Outcome × List Event) :=
  match fetch_all_resources api "namespaces" with
  | none => none
  | some (.error msg) => some (.failJson msg, [.get api.api_path])
  | some (.ok fn_list) =>
      match buildLookup fn_list with
      | some fn_lookup =>
          match pyDictLast fn_lookup (.str wished_fn.name) with
          | none => some (.ret false (.dict []), [.get api.api_path])
          | some target_fn =>
              if api.check_mode then
                some (.ret true
                    (.dict [("status",
                      .str "Function namespace would be destroyed")]),
                  [.get api.api_path])
              else
                match target_fn.get? "id" with
                | some idv =>
                    let delPath := api.api_path ++ "/" ++ idv.pyStr
                    let delResp := api.deleteResp delPath
                    if !delResp.ok then
                      some (.failJson ("Error deleting function namespace [" ++
                          toString delResp.status_code ++ ": " ++
                          delResp.json.pyStr ++ "]"),
                        [.get api.api_path, .wait target_fn true,
                         .delete delPath])
                    else
                      some (.ret true delResp.json,
                        [.get api.api_path, .wait target_fn true,
                         .delete delPath, .wait target_fn false])
                | none => none
      | none => none

/-- Function `present_strategy` of `scaleway_function_namespace.py`: list via
`fetch_all_resources`, look the name up; create when absent, diff-and-patch
when present; check mode short-circuits before either mutation; after a
successful create or update, wait and re-read. -/
def present_strategy (api : Api) (wished_fn : Params) :
    Option (Outcome × List Event) :=
  match fetch_all_resources api "namespaces" with
  | none => none
  | some (.error msg) => some (.failJson msg, [.get api.api_path])
  | some (.ok fn_list) =>
      match buildLookup fn_list with
      | some fn_lookup =>
          let playload_fn := payload_from_wished_fn wished_fn
          match pyDictLast fn_lookup (.str wished_fn.name) with
          | none =>
              if api.check_mode then
                some (.ret true
                    (.dict [("status",
                      .str "A function namespace would be created.")]),
                  [.get api.api_path])
              else
                let creation_response :=
                  api.postResp api.api_path (.dict playload_fn)
                if !creation_response.ok then
                  match creation_response.json.get? "message" with
                  | some m =>
                      some (.failJson
                          ("Error during function namespace creation: " ++
                           creation_response.info_msg ++ ": '" ++ m.pyStr ++
                           "' (" ++ creation_response.json.pyStr ++ ")"),
                        [.get api.api_path, .warn (.dict playload_fn),
                         .post api.api_path (.dict playload_fn)])
                  | none => none
                else
                  match creation_response.json.get? "id" with
                  | some idv =>
                      let readPath := api.api_path ++ "/" ++ idv.pyStr
                      let response2 := api.getResp readPath
                      some (.ret true response2.json,
                        [.get api.api_path, .warn (.dict playload_fn),
                         .post api.api_path (.dict playload_fn),
                         .wait creation_response.json false, .get readPath])
                  | none => none
          | some target_fn =>
              let patch_payload := resource_attributes_should_be_changed
                target_fn playload_fn VERIFIABLE_MUTABLE_ATTRIBUTES
                MUTABLE_ATTRIBUTES
              if patch_payload.isEmpty then
                some (.ret false target_fn, [.get api.api_path])
              else if api.check_mode then
                some (.ret true
                    (.dict [("status",
                      .str "Function namespace attributes would be changed.")]),
                  [.get api.api_path])
              else
                match target_fn.get? "id" with
                | some idv =>
                    let patchPath := api.api_path ++ "/" ++ idv.pyStr
                    let fn_patch_response :=
                      api.patchResp patchPath (.dict patch_payload)
                    if !fn_patch_response.ok then
                      match fn_patch_response.json.get? "message" with
                      | some m =>
                          some (.failJson
                              ("Error during function namespace attributes update: [" ++
                               toString fn_patch_response.status_code ++
                               ": " ++ m.pyStr ++ "]"),
                            [.get api.api_path,
                             .patch patchPath (.dict patch_payload)])
                      | none => none
                    else
                      let response2 := api.getResp patchPath
                      some (.ret true response2.json,
                        [.get api.api_path,
                         .patch patchPath (.dict patch_payload),
                         .wait target_fn false, .get patchPath])
                | none => none
      | none => none

/-- The endpoint path `core` configures:
`"functions/v1beta1/regions/%s/namespaces" % region`. -/
def api_path (region : String) : String :=
  "functions/v1beta1/regions/" ++ region ++ "/namespaces"

/-- Function `core` of `scaleway_function_namespace.py`: build the api with the
regional path, dispatch on `state`, and exit with the redacted summary. -/
def core (b : Backend) (check_mode : Bool) (params : Params) :
    Option (ModuleResult × List Event) :=
  let api := b.toApi (api_path params.region) check_mode
  let strat :=
    if params.state = "present" then some (present_strategy api params)
    else if params.state = "absent" then some (absent_strategy api params)
    else none
  match strat with
  | none => none
  | some none => none
  | some (some (.failJson msg, trace)) => some (.failJson msg, trace)
  | some (some (.ret changed summary, trace)) =>
      match filter_sensitive_attributes summary SENSITIVE_ATTRIBUTES with
      | some filtered =>
          some (.exitJson changed "function_namespace" filtered, trace)
      | none => none

end scaleway_function_namespace

namespace scaleway_container_registry_info

/-- The constant `SENSITIVE_ATTRIBUTES = ("secret_environment_variables")` — a plain
parenthesized string, not a tuple: there is no trailing comma in the source. -/
def SENSITIVE_ATTRIBUTES : StrIterable := .str "secret_environment_variables"

/-- The `wished_container_namespace` dict that `core` builds from
`module.params` (`project_id` and `name` are both `type=str`). -/
structure Params where
  project_id : String
  name : String
  region : String

/-- Function `info_strategy` of `scaleway_container_registry_info.py`: list, look the
name up, fail with a descriptive message when absent, otherwise re-read the
resource by id. -/
def info_strategy (api : Api) (wished_cn : Params) :
    Option (Outcome × List Event) :=
  let response := api.getResp api.api_path
  if !response.ok then
    match response.json.get? "message" with
    | some m =>
        some (.failJson ("Error getting container registries [" ++
            toString response.status_code ++ ": " ++ m.pyStr ++ "]"),
          [.get api.api_path])
    | none => none
  else
    match response.json.get? "namespaces" with
    | some (.list cn_list) =>
        match buildLookup cn_list with
        | some cn_lookup =>
            match pyDictLast cn_lookup (.str wished_cn.name) with
            | none =>
                some (.failJson
                    ("Error during container registries lookup: Unable to find container registry named '" ++
                     wished_cn.name ++ "' in project '" ++
                     wished_cn.project_id ++ "'"),
                  [.get api.api_path])
            | some target_cn =>
                match target_cn.get? "id" with
                | some idv =>
                    let readPath := api.api_path ++ "/" ++ idv.pyStr
                    let response2 := api.getResp readPath
                    if !response2.ok then
                      match response2.json.get? "message" with
                      | some m =>
                          some (.failJson
                              ("Error during container registry lookup: " ++
                               response2.info_msg ++ ": '" ++ m.pyStr ++
                               "' (" ++ response2.json.pyStr ++ ")"),
                            [.get api.api_path, .get readPath])
                      | none => none
                    else
                      some (.ret false response2.json,
                        [.get api.api_path, .get readPath])
                | none => none
        | none => none
    | _ => none

/-- The endpoint path `core` configures:
`"registry/v1/regions/%s/namespaces" % region`. -/
def api_path (region : String) : String :=
  "registry/v1/regions/" ++ region ++ "/namespaces"

/-- Function `core` of `scaleway_container_registry_info.py`: run `info_strategy` and
exit with `changed=False` and the redacted summary.  The strategy itself never
returns a changed flag; `core` passes `False` verbatim to `exit_json`. -/
def core (b : Backend) (check_mode : Bool) (params : Params) :
    Option (ModuleResult × List Event) :=
  let api := b.toApi (api_path params.region) check_mode
  match info_strategy api params with
  | none => none
  | some (.failJson msg, trace) => some (.failJson msg, trace)
  | some (.ret _ summary, trace) =>
      match filter_sensitive_attributes summary SENSITIVE_ATTRIBUTES with
      | some filtered =>
          some (.exitJson false "container_registry" filtered, trace)
      | none => none

end scaleway_container_registry_info

namespace scaleway_function_namespace_info

/-- The constant `SENSITIVE_ATTRIBUTES = ("secret_environment_variables")` — a plain
parenthesized string, not a tuple: there is no trailing comma in the source. -/
def SENSITIVE_ATTRIBUTES : StrIterable := .str "secret_environment_variables"

/-- The `wished_function_namespace` dict that `core` builds from
`module.params` (`project_id` and `name` are both `type=str`). -/
structure Params where
  project_id : String
  name : String
  region : String

/-- Function `info_strategy` of `scaleway_function_namespace_info.py`: list, look the
name up, fail with a descriptive message when absent, otherwise re-read the
resource by id. -/
def info_strategy (api : Api) (wished_fn : Params) :
    Option (Outcome × List Event) :=
  let response := api.getResp api.api_path
  if !response.ok then
    match response.json.get? "message" with
    | some m =>
        some (.failJson ("Error getting function namespaces [" ++
            toString response.status_code ++ ": " ++ m.pyStr ++ "]"),
          [.get api.api_path])
    | none => none
  else
    match response.json.get? "namespaces" with
    | some (.list fn_list) =>
        match buildLookup fn_list with
        | some fn_lookup =>
            match pyDictLast fn_lookup (.str wished_fn.name) with
            | none =>
                some (.failJson
                    ("Error during function namespace lookup: Unable to find function namespace named '" ++
                     wished_fn.name ++ "' in project '" ++
                     wished_fn.project_id ++ "'"),
                  [.get api.api_path])
            | some target_fn =>
                match target_fn.get? "id" with
                | some idv =>
                    let readPath := api.api_path ++ "/" ++ idv.pyStr
                    let response2 := api.getResp readPath
                    if !response2.ok then
                      match response2.json.get? "message" with
                      | some m =>
                          some (.failJson
                              ("Error during function namespace lookup: " ++
                               response2.info_msg ++ ": '" ++ m.pyStr ++
                               "' (" ++ response2.json.pyStr ++ ")"),
                            [.get api.api_path, .get readPath])
                      | none => none
                    else
                      some (.ret false response2.json,
                        [.get api.api_path, .get readPath])
                | none => none
        | none => none
    | _ => none

/-- The endpoint path `core` configures:
`"functions/v1beta1/regions/%s/namespaces" % region`. -/
def api_path (region : String) : String :=
  "functions/v1beta1/regions/" ++ region ++ "/namespaces"

/-- Function `core` of `scaleway_function_namespace_info.py`: run `info_strategy` and
exit with `changed=False` and the redacted summary. -/
def core (b : Backend) (check_mode : Bool) (params : Params) :
    Option (ModuleResult × List Event) :=
  let api := b.toApi (api_path params.region) check_mode
  match info_strategy api params with
  | none => none
  | some (.failJson msg, trace) => some (.failJson msg, trace)
  | some (.ret _ summary, trace) =>
      match filter_sensitive_attributes summary SENSITIVE_ATTRIBUTES with
      | some filtered =>
          some (.exitJson false "function_namespace" filtered, trace)
      | none => none

end scaleway_function_namespace_info

/-- A constant-response backend for concrete runs: every GET succeeds with a
one-namespace listing, the mutating verbs all answer with errors. -/
def infoTestBackend : Backend where
  getResp _ :=
    { ok := true, status_code := 200, info_msg := "OK",
      json := .dict [("namespaces",
        .list [.dict [("name", .str "reg"), ("id", .str "rid")]])] }
  postResp _ _ :=
    { ok := false, status_code := 405, info_msg := "ERR", json := .dict [] }
  patchResp _ _ :=
    { ok := false, status_code := 405, info_msg := "ERR", json := .dict [] }
  deleteResp _ :=
    { ok := false, status_code := 405, info_msg := "ERR", json := .dict [] }

def C9regParams : scaleway_container_registry_info.Params :=
  { project_id := "proj", name := "reg", region := "fr-par" }

def C9fnParams : scaleway_function_namespace_info.Params :=
  { project_id := "proj", name := "reg", region := "fr-par" }

def C9regRun : ModuleResult × List Event :=
  (scaleway_container_registry_info.core infoTestBackend false C9regParams).getD
    (.failJson "unreachable", [])

def C9fnRun : ModuleResult × List Event :=
  (scaleway_function_namespace_info.core infoTestBackend false C9fnParams).getD
    (.failJson "unreachable", [])

/-- An empty-listing backend: every GET succeeds with zero namespaces. -/
def emptyListingBackend : Backend where
  getResp _ :=
    { ok := true, status_code := 200, info_msg := "OK",
      json := .dict [("namespaces", .list [])] }
  postResp _ _ :=
    { ok := false, status_code := 405, info_msg := "ERR", json := .dict [] }
  patchResp _ _ :=
    { ok := false, status_code := 405, info_msg := "ERR", json := .dict [] }
  deleteResp _ :=
    { ok := false, status_code := 405, info_msg := "ERR", json := .dict [] }

/-- A backend whose listing GET returns one container named `reg`. -/
def containerListingBackend : Backend where
  getResp _ :=
    { ok := true, status_code := 200, info_msg := "OK",
      json := .dict [("containers",
        .list [.dict [("name", .str "reg"), ("id", .str "rid")]])] }
  postResp _ _ :=
    { ok := false, status_code := 405, info_msg := "ERR", json := .dict [] }
  patchResp _ _ :=
    { ok := false, status_code := 405, info_msg := "ERR", json := .dict [] }
  deleteResp _ :=
    { ok := false, status_code := 405, info_msg := "ERR", json := .dict [] }

/-- Desired container parameters used in concrete runs. -/
def sampleContainerParams : scaleway_container.Params :=
  { state := "absent", namespace_id := .str "ns", name := "reg",
    description := .str "", min_scale := .null, max_scale := .null,
    environment_variables := .dict [], secret_environment_variables := [],
    memory_limit := .null, timeout := .null, privacy := .str "public",
    registry_image := .str "img", max_concurrency := .null,
    protocol := .str "http1", port := .null, redeploy := .bool false,
    region := "fr-par" }

def C3api : Api :=
  containerListingBackend.toApi (scaleway_container.api_path "fr-par") true

def C3run : Outcome × List Event :=
  (scaleway_container.absent_strategy C3api sampleContainerParams).getD
    (.failJson "unreachable", [])

/-- A container description that already matches `presentContainerParams` on
every mutable attribute. -/
def convergedContainer : Value :=
  .dict [("name", .str "reg"), ("id", .str "rid"),
    ("description", .str ""), ("environment_variables", .dict []),
    ("privacy", .str "public"), ("registry_image", .str "img"),
    ("protocol", .str "http1"), ("secret_environment_variables", .list [])]

/-- A backend whose container listing holds exactly `convergedContainer`. -/
def convergedContainerBackend : Backend where
  getResp _ :=
    { ok := true, status_code := 200, info_msg := "OK",
      json := .dict [("containers", .list [convergedContainer])] }
  postResp _ _ :=
    { ok := false, status_code := 405, info_msg := "ERR", json := .dict [] }
  patchResp _ _ :=
    { ok := false, status_code := 405, info_msg := "ERR", json := .dict [] }
  deleteResp _ :=
    { ok := false, status_code := 405, info_msg := "ERR", json := .dict [] }

def C4api : Api :=
  convergedContainerBackend.toApi (scaleway_container.api_path "fr-par") false

def C4apiAbsent : Api :=
  convergedContainerBackend.toApi (scaleway_container.api_path "fr-par") false

/-- Same desired container, but under a name absent from the listing. -/
def sampleAbsentParams : scaleway_container.Params :=
  { sampleContainerParams with name := "other" }

def C6run : ModuleResult × List Event :=
  (scaleway_container.core convergedContainerBackend false
    sampleContainerParams).getD (.failJson "unreachable", [])

/-- A backend whose container listing holds two containers that share the
name `reg`: the first with id `rid1`, the second with id `rid2`. -/
def C8backend : Backend where
  getResp _ :=
    { ok := true, status_code := 200, info_msg := "OK",
      json := .dict [("containers", .list
        [.dict [("name", .str "reg"), ("id", .str "rid1")],
         .dict [("name", .str "reg"), ("id", .str "rid2")]])] }
  postResp _ _ :=
    { ok := false, status_code := 405, info_msg := "ERR", json := .dict [] }
  patchResp _ _ :=
    { ok := false, status_code := 405, info_msg := "ERR", json := .dict [] }
  deleteResp _ :=
    { ok := true, status_code := 200, info_msg := "OK", json := .dict [] }

def C8api : Api :=
  C8backend.toApi (scaleway_container.api_path "fr-par") false

def C7run : Outcome × List Event :=
  (scaleway_container.present_strategy C4api sampleContainerParams).getD
    (.failJson "unreachable", [])

def C7absentRun : Outcome × List Event :=
  (scaleway_container.absent_strategy C8api sampleContainerParams).getD
    (.failJson "unreachable", [])

/-- The two same-named container descriptions of the `C8backend` listing. -/
def C8first : Value := .dict [("name", .str "reg"), ("id", .str "rid1")]

def C8second : Value := .dict [("name", .str "reg"), ("id", .str "rid2")]

/-- A backend for a concrete creation run: empty container listing,
successful creation POST. -/
def C10backend : Backend where
  getResp _ :=
    { ok := true, status_code := 200, info_msg := "OK",
      json := .dict [("containers", .list []), ("id", .str "new")] }
  postResp _ _ :=
    { ok := true, status_code := 200, info_msg := "OK",
      json := .dict [("id", .str "new")] }
  patchResp _ _ :=
    { ok := false, status_code := 405, info_msg := "ERR", json := .dict [] }
  deleteResp _ :=
    { ok := false, status_code := 405, info_msg := "ERR", json := .dict [] }

def C10api : Api :=
  C10backend.toApi (scaleway_container.api_path "fr-par") false

def C10run : Outcome × List Event :=
  (scaleway_container.present_strategy C10api sampleContainerParams).getD
    (.failJson "unreachable", [])

/-- A container whose description differs from the wished one, so an update is
required. -/
def C2target : Value :=
  .dict [("name", .str "reg"), ("id", .str "rid"), ("description", .str "old")]

/-- A backend that lists `C2target`, accepts the PATCH, but answers the
re-read GET of the patched container with a 500. -/
def C2backend : Backend where
  getResp p :=
    if p = scaleway_container.api_path "fr-par" then
      { ok := true, status_code := 200, info_msg := "OK",
        json := .dict [("containers", .list [C2target])] }
    else
      { ok := false, status_code := 500, info_msg := "Internal Server Error",
        json := .dict [("message", .str "boom")] }
  postResp _ _ :=
    { ok := false, status_code := 405, info_msg := "ERR", json := .dict [] }
  patchResp _ _ :=
    { ok := true, status_code := 200, info_msg := "OK", json := .dict [] }
  deleteResp _ :=
    { ok := false, status_code := 405, info_msg := "ERR", json := .dict [] }

def C2api : Api :=
  C2backend.toApi (scaleway_container.api_path "fr-par") false

/-- The `C2backend` seen in check mode: an update would be required. -/
def C3updateApi : Api :=
  C2backend.toApi (scaleway_container.api_path "fr-par") true

/-- A backend whose every GET fails with a 500 carrying a `message` body. -/
def C2failBackend : Backend where
  getResp _ :=
    { ok := false, status_code := 500, info_msg := "Internal Server Error",
      json := .dict [("message", .str "boom")] }
  postResp _ _ :=
    { ok := false, status_code := 405, info_msg := "ERR", json := .dict [] }
  patchResp _ _ :=
    { ok := false, status_code := 405, info_msg := "ERR", json := .dict [] }
  deleteResp _ :=
    { ok := false, status_code := 405, info_msg := "ERR", json := .dict [] }

def C2failApi : Api :=
  C2failBackend.toApi (scaleway_container.api_path "fr-par") false

/-- A secret environment variable value as the API would store and return
it. -/
def C1secret : Value :=
  .list [.dict [("key", .str "MY_SECRET_VAR"), ("value", .str "my_secret_value")]]

/-- A converged container description whose `secret_environment_variables`
attribute holds the secret value. -/
def C1containerTarget : Value :=
  .dict [("name", .str "reg"), ("id", .str "rid"),
    ("description", .str ""), ("environment_variables", .dict []),
    ("privacy", .str "public"), ("registry_image", .str "img"),
    ("protocol", .str "http1"), ("secret_environment_variables", C1secret)]

def C1containerBackend : Backend where
  getResp _ :=
    { ok := true, status_code := 200, info_msg := "OK",
      json := .dict [("containers", .list [C1containerTarget])] }
  postResp _ _ :=
    { ok := false, status_code := 405, info_msg := "ERR", json := .dict [] }
  patchResp _ _ :=
    { ok := false, status_code := 405, info_msg := "ERR", json := .dict [] }
  deleteResp _ :=
    { ok := false, status_code := 405, info_msg := "ERR", json := .dict [] }

def C1containerParams : scaleway_container.Params :=
  { sampleContainerParams with state := "present" }

/-- A converged function namespace description holding the same secret. -/
def C1fnTarget : Value :=
  .dict [("name", .str "reg"), ("id", .str "rid"),
    ("description", .str ""), ("environment_variables", .dict []),
    ("secret_environment_variables", C1secret)]

def C1fnBackend : Backend where
  getResp _ :=
    { ok := true, status_code := 200, info_msg := "OK",
      json := .dict [("namespaces", .list [C1fnTarget])] }
  postResp _ _ :=
    { ok := false, status_code := 405, info_msg := "ERR", json := .dict [] }
  patchResp _ _ :=
    { ok := false, status_code := 405, info_msg := "ERR", json := .dict [] }
  deleteResp _ :=
    { ok := false, status_code := 405, info_msg := "ERR", json := .dict [] }

def C1fnParams : scaleway_function_namespace.Params :=
  { state := "present", project_id := .str "proj", name := "reg",
    description := .str "", environment_variables := .dict [],
    secret_environment_variables := [], region := "fr-par" }

/-- Every event of a `scaleway_container_registry_info.info_strategy` trace is
a GET, and any `ret` outcome carries `changed = false`. -/
theorem scwcri_info_strategy_shape (api : Api)
    (w : scaleway_container_registry_info.Params) (o : Outcome) (t : List Event)
    (h : scaleway_container_registry_info.info_strategy api w = some (o, t)) :
    (∀ e ∈ t, ∃ p, e = .get p ∧ ∃ s, p = api.api_path ++ s) ∧
    (∀ ch s, o = .ret ch s → ch = false) := by
  unfold scaleway_container_registry_info.info_strategy at h
  dsimp only at h
  repeat' split at h
  all_goals try exact Option.noConfusion h
  all_goals simp only [Option.some_inj, Prod.mk.injEq] at h
  all_goals obtain ⟨rfl, rfl⟩ := h
  all_goals constructor
  all_goals try (intro ch s hcs; cases hcs; rfl)
  all_goals try (intro ch s hcs; exact Outcome.noConfusion hcs)
  all_goals intro e he
  all_goals simp only [List.mem_singleton, List.mem_cons, List.not_mem_nil,
    or_false] at he
  all_goals first
    | (subst he
       exact ⟨_, rfl, "", (String.append_empty _).symm⟩)
    | (rcases he with rfl | rfl
       · exact ⟨_, rfl, "", (String.append_empty _).symm⟩
       · exact ⟨_, rfl, _, String.append_assoc _ _ _⟩)

/-- Every event of a `scaleway_function_namespace_info.info_strategy` trace is
a GET, and any `ret` outcome carries `changed = false`. -/
theorem scwfni_info_strategy_shape (api : Api)
    (w : scaleway_function_namespace_info.Params) (o : Outcome) (t : List Event)
    (h : scaleway_function_namespace_info.info_strategy api w = some (o, t)) :
    (∀ e ∈ t, ∃ p, e = .get p ∧ ∃ s, p = api.api_path ++ s) ∧
    (∀ ch s, o = .ret ch s → ch = false) := by
  unfold scaleway_function_namespace_info.info_strategy at h
  dsimp only at h
  repeat' split at h
  all_goals try exact Option.noConfusion h
  all_goals simp only [Option.some_inj, Prod.mk.injEq] at h
  all_goals obtain ⟨rfl, rfl⟩ := h
  all_goals constructor
  all_goals try (intro ch s hcs; cases hcs; rfl)
  all_goals try (intro ch s hcs; exact Outcome.noConfusion hcs)
  all_goals intro e he
  all_goals simp only [List.mem_singleton, List.mem_cons, List.not_mem_nil,
    or_false] at he
  all_goals first
    | (subst he
       exact ⟨_, rfl, "", (String.append_empty _).symm⟩)
    | (rcases he with rfl | rfl
       · exact ⟨_, rfl, "", (String.append_empty _).symm⟩
       · exact ⟨_, rfl, _, String.append_assoc _ _ _⟩)

/-- C9: the two read-only info modules always report `changed = false` and
never issue a POST, PATCH or DELETE call, in every run including check mode. -/
theorem C9_info_modules_read_only :
    (∀ (b : Backend) (cm : Bool) (p : scaleway_container_registry_info.Params)
        (r : ModuleResult) (t : List Event),
      scaleway_container_registry_info.core b cm p = some (r, t) →
        (∀ e ∈ t, e.isMutating = false) ∧
        (∀ ch k v, r = .exitJson ch k v → ch = false)) ∧
    (∀ (b : Backend) (cm : Bool) (p : scaleway_function_namespace_info.Params)
        (r : ModuleResult) (t : List Event),
      scaleway_function_namespace_info.core b cm p = some (r, t) →
        (∀ e ∈ t, e.isMutating = false) ∧
        (∀ ch k v, r = .exitJson ch k v → ch = false)) := by
  constructor
  · intro b cm p r t h
    unfold scaleway_container_registry_info.core at h
    dsimp only at h
    split at h
    · exact Option.noConfusion h
    case _ msg trace heq =>
      obtain ⟨rfl, rfl⟩ := by
        simpa only [Option.some_inj, Prod.mk.injEq] using h
      refine ⟨fun e he => ?_, fun ch k v hv => ModuleResult.noConfusion hv⟩
      obtain ⟨pth, rfl, _⟩ := (scwcri_info_strategy_shape _ _ _ _ heq).1 e he
      rfl
    case _ ch summary trace heq =>
      split at h
      · obtain ⟨rfl, rfl⟩ := by
          simpa only [Option.some_inj, Prod.mk.injEq] using h
        refine ⟨fun e he => ?_, fun ch k v hv => by cases hv; rfl⟩
        obtain ⟨pth, rfl, _⟩ := (scwcri_info_strategy_shape _ _ _ _ heq).1 e he
        rfl
      · exact Option.noConfusion h
  · intro b cm p r t h
    unfold scaleway_function_namespace_info.core at h
    dsimp only at h
    split at h
    · exact Option.noConfusion h
    case _ msg trace heq =>
      obtain ⟨rfl, rfl⟩ := by
        simpa only [Option.some_inj, Prod.mk.injEq] using h
      refine ⟨fun e he => ?_, fun ch k v hv => ModuleResult.noConfusion hv⟩
      obtain ⟨pth, rfl, _⟩ := (scwfni_info_strategy_shape _ _ _ _ heq).1 e he
      rfl
    case _ ch summary trace heq =>
      split at h
      · obtain ⟨rfl, rfl⟩ := by
          simpa only [Option.some_inj, Prod.mk.injEq] using h
        refine ⟨fun e he => ?_, fun ch k v hv => by cases hv; rfl⟩
        obtain ⟨pth, rfl, _⟩ := (scwfni_info_strategy_shape _ _ _ _ heq).1 e he
        rfl
      · exact Option.noConfusion h

/-- Witness for C9: a concrete run of each info module. -/
theorem C9_info_modules_read_only_witness :
    ((∀ e ∈ C9regRun.2, e.isMutating = false) ∧
      (∀ ch k v, C9regRun.1 = .exitJson ch k v → ch = false)) ∧
    ((∀ e ∈ C9fnRun.2, e.isMutating = false) ∧
      (∀ ch k v, C9fnRun.1 = .exitJson ch k v → ch = false)) :=
  ⟨C9_info_modules_read_only.1 infoTestBackend false C9regParams
      C9regRun.1 C9regRun.2 rfl,
    C9_info_modules_read_only.2 infoTestBackend false C9fnParams
      C9fnRun.1 C9fnRun.2 rfl⟩

/-- C5: when no resource with the requested name appears in the listing, each
info module fails immediately with a message naming the missing resource and
the project, after only the one listing GET and returning no data. -/
theorem C5_info_lookup_miss_fails :
    (∀ (api : Api) (w : scaleway_container_registry_info.Params)
        (xs : List Value) (l : List (Value × Value)),
      (api.getResp api.api_path).ok = true →
      (api.getResp api.api_path).json.get? "namespaces" = some (.list xs) →
      buildLookup xs = some l →
      pyDictLast l (.str w.name) = none →
      scaleway_container_registry_info.info_strategy api w =
        some (.failJson
          ("Error during container registries lookup: Unable to find container registry named '" ++
           w.name ++ "' in project '" ++ w.project_id ++ "'"),
          [.get api.api_path])) ∧
    (∀ (api : Api) (w : scaleway_function_namespace_info.Params)
        (xs : List Value) (l : List (Value × Value)),
      (api.getResp api.api_path).ok = true →
      (api.getResp api.api_path).json.get? "namespaces" = some (.list xs) →
      buildLookup xs = some l →
      pyDictLast l (.str w.name) = none →
      scaleway_function_namespace_info.info_strategy api w =
        some (.failJson
          ("Error during function namespace lookup: Unable to find function namespace named '" ++
           w.name ++ "' in project '" ++ w.project_id ++ "'"),
          [.get api.api_path])) := by
  constructor
  · intro api w xs l hok hns hbl hpd
    unfold scaleway_container_registry_info.info_strategy
    simp [hok, hns, hbl, hpd]
  · intro api w xs l hok hns hbl hpd
    unfold scaleway_function_namespace_info.info_strategy
    simp [hok, hns, hbl, hpd]

/-- Witness for C5: both info strategies fail on an empty listing. -/
theorem C5_info_lookup_miss_fails_witness :
    scaleway_container_registry_info.info_strategy
        (emptyListingBackend.toApi (scaleway_container_registry_info.api_path "fr-par") false)
        C9regParams =
      some (.failJson
        ("Error during container registries lookup: Unable to find container registry named '" ++
         "reg" ++ "' in project '" ++ "proj" ++ "'"),
        [.get (scaleway_container_registry_info.api_path "fr-par")]) ∧
    scaleway_function_namespace_info.info_strategy
        (emptyListingBackend.toApi (scaleway_function_namespace_info.api_path "fr-par") false)
        C9fnParams =
      some (.failJson
        ("Error during function namespace lookup: Unable to find function namespace named '" ++
         "reg" ++ "' in project '" ++ "proj" ++ "'"),
        [.get (scaleway_function_namespace_info.api_path "fr-par")]) :=
  ⟨C5_info_lookup_miss_fails.1 _ C9regParams [] [] rfl rfl rfl rfl,
   C5_info_lookup_miss_fails.2 _ C9fnParams [] [] rfl rfl rfl rfl⟩

/-- C3: in check mode every mutating strategy issues no POST, PATCH or
DELETE; and whenever a change would be required (create, update or delete),
it returns immediately after the listing with `changed = true` and a status
dict describing the would-be change. -/
theorem C3_check_mode_short_circuits :
    ((∀ (api : Api) (w : scaleway_container.Params) (o : Outcome) (t : List Event),
      api.check_mode = true →
      scaleway_container.present_strategy api w = some (o, t) →
      ∀ e ∈ t, e.isMutating = false) ∧
    (∀ (api : Api) (w : scaleway_container.Params) (o : Outcome) (t : List Event),
      api.check_mode = true →
      scaleway_container.absent_strategy api w = some (o, t) →
      ∀ e ∈ t, e.isMutating = false) ∧
    (∀ (api : Api) (w : scaleway_function_namespace.Params) (o : Outcome) (t : List Event),
      api.check_mode = true →
      scaleway_function_namespace.present_strategy api w = some (o, t) →
      ∀ e ∈ t, e.isMutating = false) ∧
    (∀ (api : Api) (w : scaleway_function_namespace.Params) (o : Outcome) (t : List Event),
      api.check_mode = true →
      scaleway_function_namespace.absent_strategy api w = some (o, t) →
      ∀ e ∈ t, e.isMutating = false)) ∧
    ((∀ (api : Api) (w : scaleway_container.Params) (xs : List Value)
        (l : List (Value × Value)),
      api.check_mode = true →
      (api.getResp api.api_path).ok = true →
      (api.getResp api.api_path).json.get? "containers" = some (.list xs) →
      buildLookup xs = some l →
      pyDictLast l (.str w.name) = none →
      scaleway_container.present_strategy api w =
        some (.ret true (.dict [("status", .str "A container would be created.")]),
          [.get api.api_path])) ∧
    (∀ (api : Api) (w : scaleway_container.Params) (xs : List Value)
        (l : List (Value × Value)) (target : Value),
      api.check_mode = true →
      (api.getResp api.api_path).ok = true →
      (api.getResp api.api_path).json.get? "containers" = some (.list xs) →
      buildLookup xs = some l →
      pyDictLast l (.str w.name) = some target →
      (resource_attributes_should_be_changed target
        (scaleway_container.payload_from_wished_cn w)
        scaleway_container.VERIFIABLE_MUTABLE_ATTRIBUTES
        scaleway_container.MUTABLE_ATTRIBUTES).isEmpty = false →
      scaleway_container.present_strategy api w =
        some (.ret true (.dict [("status",
            .str "Container attributes would be changed.")]),
          [.get api.api_path])) ∧
    (∀ (api : Api) (w : scaleway_container.Params) (xs : List Value)
        (l : List (Value × Value)) (target : Value),
      api.check_mode = true →
      (api.getResp api.api_path).ok = true →
      (api.getResp api.api_path).json.get? "containers" = some (.list xs) →
      buildLookup xs = some l →
      pyDictLast l (.str w.name) = some target →
      scaleway_container.absent_strategy api w =
        some (.ret true (.dict [("status", .str "Container would be destroyed")]),
          [.get api.api_path])) ∧
    (∀ (api : Api) (w : scaleway_function_namespace.Params) (xs : List Value)
        (l : List (Value × Value)),
      api.check_mode = true →
      (api.getResp api.api_path).ok = true →
      (api.getResp api.api_path).json.get? "namespaces" = some (.list xs) →
      buildLookup xs = some l →
      pyDictLast l (.str w.name) = none →
      scaleway_function_namespace.present_strategy api w =
        some (.ret true (.dict [("status",
            .str "A function namespace would be created.")]),
          [.get api.api_path])) ∧
    (∀ (api : Api) (w : scaleway_function_namespace.Params) (xs : List Value)
        (l : List (Value × Value)) (target : Value),
      api.check_mode = true →
      (api.getResp api.api_path).ok = true →
      (api.getResp api.api_path).json.get? "namespaces" = some (.list xs) →
      buildLookup xs = some l →
      pyDictLast l (.str w.name) = some target →
      (resource_attributes_should_be_changed target
        (scaleway_function_namespace.payload_from_wished_fn w)
        scaleway_function_namespace.VERIFIABLE_MUTABLE_ATTRIBUTES
        scaleway_function_namespace.MUTABLE_ATTRIBUTES).isEmpty = false →
      scaleway_function_namespace.present_strategy api w =
        some (.ret true (.dict [("status",
            .str "Function namespace attributes would be changed.")]),
          [.get api.api_path])) ∧
    (∀ (api : Api) (w : scaleway_function_namespace.Params) (xs : List Value)
        (l : List (Value × Value)) (target : Value),
      api.check_mode = true →
      (api.getResp api.api_path).ok = true →
      (api.getResp api.api_path).json.get? "namespaces" = some (.list xs) →
      buildLookup xs = some l →
      pyDictLast l (.str w.name) = some target →
      scaleway_function_namespace.absent_strategy api w =
        some (.ret true
            (.dict [("status", .str "Function namespace would be destroyed")]),
          [.get api.api_path]))) := by
  constructor
  · refine ⟨?_, ?_, ?_, ?_⟩ <;> intro api w o t hcm h
    all_goals first
      | unfold scaleway_container.present_strategy at h
      | unfold scaleway_container.absent_strategy at h
      | unfold scaleway_function_namespace.present_strategy at h
      | unfold scaleway_function_namespace.absent_strategy at h
    all_goals dsimp only at h
    all_goals repeat' split at h
    all_goals try exact Option.noConfusion h
    all_goals try exact absurd hcm (by assumption)
    all_goals simp only [Option.some_inj, Prod.mk.injEq] at h
    all_goals obtain ⟨rfl, rfl⟩ := h
    all_goals intro e he
    all_goals simp only [List.mem_singleton] at he
    all_goals subst he
    all_goals rfl
  · refine ⟨?_, ?_, ?_, ?_, ?_, ?_⟩
    · intro api w xs l hcm hok hcs hbl hpd
      unfold scaleway_container.present_strategy
      simp [hcm, hok, hcs, hbl, hpd]
    · intro api w xs l target hcm hok hcs hbl hpd hne
      unfold scaleway_container.present_strategy
      simp [hcm, hok, hcs, hbl, hpd, hne]
    · intro api w xs l target hcm hok hcs hbl hpd
      unfold scaleway_container.absent_strategy
      simp [hcm, hok, hcs, hbl, hpd]
    · intro api w xs l hcm hok hns hbl hpd
      have hfetch : fetch_all_resources api "namespaces" = some (.ok xs) := by
        unfold fetch_all_resources
        simp [hok, hns]
      unfold scaleway_function_namespace.present_strategy
      simp [hcm, hfetch, hbl, hpd]
    · intro api w xs l target hcm hok hns hbl hpd hne
      have hfetch : fetch_all_resources api "namespaces" = some (.ok xs) := by
        unfold fetch_all_resources
        simp [hok, hns]
      unfold scaleway_function_namespace.present_strategy
      simp [hcm, hfetch, hbl, hpd, hne]
    · intro api w xs l target hcm hok hns hbl hpd
      have hfetch : fetch_all_resources api "namespaces" = some (.ok xs) := by
        unfold fetch_all_resources
        simp [hok, hns]
      unfold scaleway_function_namespace.absent_strategy
      simp [hcm, hfetch, hbl, hpd]

/-- Witness for C3: two concrete check-mode runs that require a change.  The
container absent strategy returns `changed = true` with the destroy status
dict, and the container present strategy on a differing resource returns
`changed = true` with the update status dict; neither issues a mutating
call. -/
theorem C3_check_mode_short_circuits_witness :
    scaleway_container.absent_strategy C3api sampleContainerParams =
      some (.ret true (.dict [("status", .str "Container would be destroyed")]),
        [.get C3api.api_path]) ∧
    scaleway_container.present_strategy C3updateApi sampleContainerParams =
      some (.ret true (.dict [("status",
          .str "Container attributes would be changed.")]),
        [.get C3updateApi.api_path]) :=
  ⟨C3_check_mode_short_circuits.2.2.2.1 C3api sampleContainerParams
      [.dict [("name", .str "reg"), ("id", .str "rid")]]
      [(.str "reg", .dict [("name", .str "reg"), ("id", .str "rid")])]
      (.dict [("name", .str "reg"), ("id", .str "rid")])
      rfl rfl rfl rfl rfl,
    C3_check_mode_short_circuits.2.2.1 C3updateApi sampleContainerParams
      [C2target] [(.str "reg", C2target)] C2target
      rfl rfl rfl rfl rfl (by decide)⟩

/-- If every mutable attribute of the wished payload already matches the
observed resource, the spec-modelled diff helper returns an empty patch. -/
theorem rasbc_empty_of_eq (target : Value) (wished : List (String × Value))
    (V M : List String) (hVM : ∀ a ∈ V, a ∈ M)
    (heq : ∀ a ∈ M, target.getD a = lookupD wished a) :
    resource_attributes_should_be_changed target wished V M = [] := by
  unfold resource_attributes_should_be_changed
  have hfil : V.filter (fun attr =>
      lookupD wished attr != Value.null &&
      target.getD attr != lookupD wished attr) = [] := by
    rw [List.filter_eq_nil_iff]
    intro a ha
    have h := heq a (hVM a ha)
    simp [h]
  simp [hfil]

/-- C4: when the observed state already matches the desired state, the
reconciliation strategies issue only the listing GET and return
`changed = false`. -/
theorem C4_idempotent_when_converged :
    (∀ (api : Api) (w : scaleway_container.Params) (xs : List Value)
        (l : List (Value × Value)) (target : Value),
      (api.getResp api.api_path).ok = true →
      (api.getResp api.api_path).json.get? "containers" = some (.list xs) →
      buildLookup xs = some l →
      pyDictLast l (.str w.name) = some target →
      (∀ a ∈ scaleway_container.MUTABLE_ATTRIBUTES,
        target.getD a = lookupD (scaleway_container.payload_from_wished_cn w) a) →
      scaleway_container.present_strategy api w =
        some (.ret false target, [.get api.api_path])) ∧
    (∀ (api : Api) (w : scaleway_container.Params) (xs : List Value)
        (l : List (Value × Value)),
      (api.getResp api.api_path).ok = true →
      (api.getResp api.api_path).json.get? "containers" = some (.list xs) →
      buildLookup xs = some l →
      pyDictLast l (.str w.name) = none →
      scaleway_container.absent_strategy api w =
        some (.ret false (.dict []), [.get api.api_path])) ∧
    (∀ (api : Api) (w : scaleway_function_namespace.Params) (xs : List Value)
        (l : List (Value × Value)) (target : Value),
      (api.getResp api.api_path).ok = true →
      (api.getResp api.api_path).json.get? "namespaces" = some (.list xs) →
      buildLookup xs = some l →
      pyDictLast l (.str w.name) = some target →
      (∀ a ∈ scaleway_function_namespace.MUTABLE_ATTRIBUTES,
        target.getD a =
          lookupD (scaleway_function_namespace.payload_from_wished_fn w) a) →
      scaleway_function_namespace.present_strategy api w =
        some (.ret false target, [.get api.api_path])) ∧
    (∀ (api : Api) (w : scaleway_function_namespace.Params) (xs : List Value)
        (l : List (Value × Value)),
      (api.getResp api.api_path).ok = true →
      (api.getResp api.api_path).json.get? "namespaces" = some (.list xs) →
      buildLookup xs = some l →
      pyDictLast l (.str w.name) = none →
      scaleway_function_namespace.absent_strategy api w =
        some (.ret false (.dict []), [.get api.api_path])) := by
  refine ⟨?_, ?_, ?_, ?_⟩
  · intro api w xs l target hok hcs hbl hpd hattr
    have hpp := rasbc_empty_of_eq target
      (scaleway_container.payload_from_wished_cn w)
      scaleway_container.VERIFIABLE_MUTABLE_ATTRIBUTES
      scaleway_container.MUTABLE_ATTRIBUTES (by decide) hattr
    unfold scaleway_container.present_strategy
    simp [hok, hcs, hbl, hpd, hpp]
  · intro api w xs l hok hcs hbl hpd
    unfold scaleway_container.absent_strategy
    simp [hok, hcs, hbl, hpd]
  · intro api w xs l target hok hns hbl hpd hattr
    have hpp := rasbc_empty_of_eq target
      (scaleway_function_namespace.payload_from_wished_fn w)
      scaleway_function_namespace.VERIFIABLE_MUTABLE_ATTRIBUTES
      scaleway_function_namespace.MUTABLE_ATTRIBUTES (by decide) hattr
    have hfetch : fetch_all_resources api "namespaces" = some (.ok xs) := by
      unfold fetch_all_resources
      simp [hok, hns]
    unfold scaleway_function_namespace.present_strategy
    simp [hfetch, hbl, hpd, hpp]
  · intro api w xs l hok hns hbl hpd
    have hfetch : fetch_all_resources api "namespaces" = some (.ok xs) := by
      unfold fetch_all_resources
      simp [hok, hns]
    unfold scaleway_function_namespace.absent_strategy
    simp [hfetch, hbl, hpd]

/-- Witness for C4: a concrete converged `present` run and a concrete empty
`absent` run of the container module; neither mutates and both report
`changed = false`.  (The empty-listing backend answers with a `namespaces`
key only, so here the absent run is exercised against a listing that holds
one container whose name differs from the wished one.) -/
theorem C4_idempotent_when_converged_witness :
    scaleway_container.present_strategy C4api sampleContainerParams =
      some (.ret false convergedContainer, [.get C4api.api_path]) ∧
    scaleway_container.absent_strategy C4apiAbsent sampleAbsentParams =
      some (.ret false (.dict []), [.get C4apiAbsent.api_path]) :=
  ⟨C4_idempotent_when_converged.1 C4api sampleContainerParams
      [convergedContainer] [(.str "reg", convergedContainer)] convergedContainer
      rfl rfl rfl rfl (by decide),
    C4_idempotent_when_converged.2.1 C4apiAbsent sampleAbsentParams
      [convergedContainer] [(.str "reg", convergedContainer)]
      rfl rfl rfl rfl⟩

/-- Every request path of a `scaleway_container.present_strategy` trace
extends the configured endpoint path. -/
theorem scwc_present_paths (api : Api) (w : scaleway_container.Params)
    (o : Outcome) (t : List Event)
    (h : scaleway_container.present_strategy api w = some (o, t)) :
    ∀ e ∈ t, ∀ pa, e.path? = some pa → ∃ s, pa = api.api_path ++ s := by
  unfold scaleway_container.present_strategy at h
  dsimp only at h
  repeat' split at h
  all_goals try exact Option.noConfusion h
  all_goals simp only [Option.some_inj, Prod.mk.injEq] at h
  all_goals obtain ⟨rfl, rfl⟩ := h
  all_goals intro e he pa hpa
  all_goals simp only [List.mem_cons, List.not_mem_nil, or_false] at he
  all_goals rcases he with rfl | rfl | rfl | rfl | rfl
  all_goals simp only [Event.path?] at hpa
  all_goals try exact Option.noConfusion hpa
  all_goals simp only [Option.some_inj] at hpa
  all_goals subst hpa
  all_goals first
    | exact ⟨"", (String.append_empty _).symm⟩
    | exact ⟨_, String.append_assoc _ _ _⟩

/-- Every request path of a `scaleway_container.absent_strategy` trace
extends the configured endpoint path. -/
theorem scwc_absent_paths (api : Api) (w : scaleway_container.Params)
    (o : Outcome) (t : List Event)
    (h : scaleway_container.absent_strategy api w = some (o, t)) :
    ∀ e ∈ t, ∀ pa, e.path? = some pa → ∃ s, pa = api.api_path ++ s := by
  unfold scaleway_container.absent_strategy at h
  dsimp only at h
  repeat' split at h
  all_goals try exact Option.noConfusion h
  all_goals simp only [Option.some_inj, Prod.mk.injEq] at h
  all_goals obtain ⟨rfl, rfl⟩ := h
  all_goals intro e he pa hpa
  all_goals simp only [List.mem_cons, List.not_mem_nil, or_false] at he
  all_goals rcases he with rfl | rfl | rfl | rfl | rfl
  all_goals simp only [Event.path?] at hpa
  all_goals try exact Option.noConfusion hpa
  all_goals simp only [Option.some_inj] at hpa
  all_goals subst hpa
  all_goals first
    | exact ⟨"", (String.append_empty _).symm⟩
    | exact ⟨_, String.append_assoc _ _ _⟩

/-- Every request path of a `scaleway_function_namespace.present_strategy`
trace extends the configured endpoint path. -/
theorem scwfn_present_paths (api : Api)
    (w : scaleway_function_namespace.Params) (o : Outcome) (t : List Event)
    (h : scaleway_function_namespace.present_strategy api w = some (o, t)) :
    ∀ e ∈ t, ∀ pa, e.path? = some pa → ∃ s, pa = api.api_path ++ s := by
  unfold scaleway_function_namespace.present_strategy at h
  dsimp only at h
  repeat' split at h
  all_goals try exact Option.noConfusion h
  all_goals simp only [Option.some_inj, Prod.mk.injEq] at h
  all_goals obtain ⟨rfl, rfl⟩ := h
  all_goals intro e he pa hpa
  all_goals simp only [List.mem_cons, List.not_mem_nil, or_false] at he
  all_goals rcases he with rfl | rfl | rfl | rfl | rfl
  all_goals simp only [Event.path?] at hpa
  all_goals try exact Option.noConfusion hpa
  all_goals simp only [Option.some_inj] at hpa
  all_goals subst hpa
  all_goals first
    | exact ⟨"", (String.append_empty _).symm⟩
    | exact ⟨_, String.append_assoc _ _ _⟩

/-- Every request path of a `scaleway_function_namespace.absent_strategy`
trace extends the configured endpoint path. -/
theorem scwfn_absent_paths (api : Api)
    (w : scaleway_function_namespace.Params) (o : Outcome) (t : List Event)
    (h : scaleway_function_namespace.absent_strategy api w = some (o, t)) :
    ∀ e ∈ t, ∀ pa, e.path? = some pa → ∃ s, pa = api.api_path ++ s := by
  unfold scaleway_function_namespace.absent_strategy at h
  dsimp only at h
  repeat' split at h
  all_goals try exact Option.noConfusion h
  all_goals simp only [Option.some_inj, Prod.mk.injEq] at h
  all_goals obtain ⟨rfl, rfl⟩ := h
  all_goals intro e he pa hpa
  all_goals simp only [List.mem_cons, List.not_mem_nil, or_false] at he
  all_goals rcases he with rfl | rfl | rfl | rfl | rfl
  all_goals simp only [Event.path?] at hpa
  all_goals try exact Option.noConfusion hpa
  all_goals simp only [Option.some_inj] at hpa
  all_goals subst hpa
  all_goals first
    | exact ⟨"", (String.append_empty _).symm⟩
    | exact ⟨_, String.append_assoc _ _ _⟩

/-- C6: every HTTP request of every run goes to the module's versioned
regional endpoint (with the configured region interpolated), or to a
subordinate path of it. -/
theorem C6_versioned_regional_endpoints :
    (∀ (b : Backend) (cm : Bool) (p : scaleway_container.Params)
        (r : ModuleResult) (t : List Event),
      scaleway_container.core b cm p = some (r, t) →
      ∀ e ∈ t, ∀ pa, e.path? = some pa →
        ∃ s, pa = "containers/v1beta1/regions/" ++ p.region ++ "/containers" ++ s) ∧
    (∀ (b : Backend) (cm : Bool) (p : scaleway_function_namespace.Params)
        (r : ModuleResult) (t : List Event),
      scaleway_function_namespace.core b cm p = some (r, t) →
      ∀ e ∈ t, ∀ pa, e.path? = some pa →
        ∃ s, pa = "functions/v1beta1/regions/" ++ p.region ++ "/namespaces" ++ s) ∧
    (∀ (b : Backend) (cm : Bool) (p : scaleway_container_registry_info.Params)
        (r : ModuleResult) (t : List Event),
      scaleway_container_registry_info.core b cm p = some (r, t) →
      ∀ e ∈ t, ∀ pa, e.path? = some pa →
        ∃ s, pa = "registry/v1/regions/" ++ p.region ++ "/namespaces" ++ s) ∧
    (∀ (b : Backend) (cm : Bool) (p : scaleway_function_namespace_info.Params)
        (r : ModuleResult) (t : List Event),
      scaleway_function_namespace_info.core b cm p = some (r, t) →
      ∀ e ∈ t, ∀ pa, e.path? = some pa →
        ∃ s, pa = "functions/v1beta1/regions/" ++ p.region ++ "/namespaces" ++ s) := by
  refine ⟨?_, ?_, ?_, ?_⟩ <;> intro b cm p r t h
  · unfold scaleway_container.core at h
    dsimp only at h
    by_cases hp : p.state = "present"
    · rw [if_pos hp] at h
      rcases hres : scaleway_container.present_strategy
          (b.toApi (scaleway_container.api_path p.region) cm) p with _ | ⟨o, tr⟩
      · rw [hres] at h; exact Option.noConfusion h
      · rw [hres] at h
        cases o
        · dsimp only at h
          simp only [Option.some_inj, Prod.mk.injEq] at h
          obtain ⟨rfl, rfl⟩ := h
          exact fun e he pa hpa => scwc_present_paths _ _ _ _ hres e he pa hpa
        · dsimp only at h
          split at h
          · simp only [Option.some_inj, Prod.mk.injEq] at h
            obtain ⟨rfl, rfl⟩ := h
            exact fun e he pa hpa => scwc_present_paths _ _ _ _ hres e he pa hpa
          · exact Option.noConfusion h
    · rw [if_neg hp] at h
      by_cases ha : p.state = "absent"
      · rw [if_pos ha] at h
        rcases hres : scaleway_container.absent_strategy
            (b.toApi (scaleway_container.api_path p.region) cm) p with _ | ⟨o, tr⟩
        · rw [hres] at h; exact Option.noConfusion h
        · rw [hres] at h
          cases o
          · dsimp only at h
            simp only [Option.some_inj, Prod.mk.injEq] at h
            obtain ⟨rfl, rfl⟩ := h
            exact fun e he pa hpa => scwc_absent_paths _ _ _ _ hres e he pa hpa
          · dsimp only at h
            split at h
            · simp only [Option.some_inj, Prod.mk.injEq] at h
              obtain ⟨rfl, rfl⟩ := h
              exact fun e he pa hpa => scwc_absent_paths _ _ _ _ hres e he pa hpa
            · exact Option.noConfusion h
      · rw [if_neg ha] at h; exact Option.noConfusion h
  · unfold scaleway_function_namespace.core at h
    dsimp only at h
    by_cases hp : p.state = "present"
    · rw [if_pos hp] at h
      rcases hres : scaleway_function_namespace.present_strategy
          (b.toApi (scaleway_function_namespace.api_path p.region) cm) p with _ | ⟨o, tr⟩
      · rw [hres] at h; exact Option.noConfusion h
      · rw [hres] at h
        cases o
        · dsimp only at h
          simp only [Option.some_inj, Prod.mk.injEq] at h
          obtain ⟨rfl, rfl⟩ := h
          exact fun e he pa hpa => scwfn_present_paths _ _ _ _ hres e he pa hpa
        · dsimp only at h
          split at h
          · simp only [Option.some_inj, Prod.mk.injEq] at h
            obtain ⟨rfl, rfl⟩ := h
            exact fun e he pa hpa => scwfn_present_paths _ _ _ _ hres e he pa hpa
          · exact Option.noConfusion h
    · rw [if_neg hp] at h
      by_cases ha : p.state = "absent"
      · rw [if_pos ha] at h
        rcases hres : scaleway_function_namespace.absent_strategy
            (b.toApi (scaleway_function_namespace.api_path p.region) cm) p with _ | ⟨o, tr⟩
        · rw [hres] at h; exact Option.noConfusion h
        · rw [hres] at h
          cases o
          · dsimp only at h
            simp only [Option.some_inj, Prod.mk.injEq] at h
            obtain ⟨rfl, rfl⟩ := h
            exact fun e he pa hpa => scwfn_absent_paths _ _ _ _ hres e he pa hpa
          · dsimp only at h
            split at h
            · simp only [Option.some_inj, Prod.mk.injEq] at h
              obtain ⟨rfl, rfl⟩ := h
              exact fun e he pa hpa => scwfn_absent_paths _ _ _ _ hres e he pa hpa
            · exact Option.noConfusion h
      · rw [if_neg ha] at h; exact Option.noConfusion h
  · unfold scaleway_container_registry_info.core at h
    dsimp only at h
    repeat' split at h
    all_goals try exact Option.noConfusion h
    all_goals simp only [Option.some_inj, Prod.mk.injEq] at h
    all_goals obtain ⟨rfl, rfl⟩ := h
    all_goals intro e he pa hpa
    all_goals obtain ⟨pth, rfl, s, rfl⟩ :=
      ((scwcri_info_strategy_shape _ _ _ _ (by assumption)).1 e he)
    all_goals injection hpa with hpa
    all_goals subst hpa
    all_goals exact ⟨s, rfl⟩
  · unfold scaleway_function_namespace_info.core at h
    dsimp only at h
    repeat' split at h
    all_goals try exact Option.noConfusion h
    all_goals simp only [Option.some_inj, Prod.mk.injEq] at h
    all_goals obtain ⟨rfl, rfl⟩ := h
    all_goals intro e he pa hpa
    all_goals obtain ⟨pth, rfl, s, rfl⟩ :=
      ((scwfni_info_strategy_shape _ _ _ _ (by assumption)).1 e he)
    all_goals injection hpa with hpa
    all_goals subst hpa
    all_goals exact ⟨s, rfl⟩

/-- Witness for C6: the listing GET of a concrete container-module run is
addressed to the versioned regional endpoint. -/
theorem C6_versioned_regional_endpoints_witness :
    ∃ s, scaleway_container.api_path "fr-par" =
      "containers/v1beta1/regions/" ++ "fr-par" ++ "/containers" ++ s :=
  C6_versioned_regional_endpoints.1 convergedContainerBackend false
    sampleContainerParams C6run.1 C6run.2 rfl
    (.get (scaleway_container.api_path "fr-par")) (by decide)
    (scaleway_container.api_path "fr-par") rfl

/-- C7: outside check mode, every mutating run lists first: a run of either
present strategy either fails (with the listing GET still first in its trace),
or performs only the listing GET (no change), or lists, mutates (POST for
create, with its warn, or PATCH for update), then waits and re-reads,
returning the re-read description; a run of either absent strategy either
fails (listing GET first), or performs only the listing GET (no change), or
lists, waits, DELETEs and waits again, returning the DELETE body. -/
theorem C7_mutating_runs_ordered :
    (∀ (api : Api) (w : scaleway_container.Params) (o : Outcome) (t : List Event),
      api.check_mode = false →
      scaleway_container.present_strategy api w = some (o, t) →
        (∃ msg, o = .failJson msg ∧ t.head? = some (.get api.api_path)) ∨
        (∃ target, o = .ret false target ∧ t = [.get api.api_path]) ∨
        (∃ d cr rp, t = [.get api.api_path, .warn d, .post api.api_path d,
            .wait cr false, .get rp] ∧
          o = .ret true (api.getResp rp).json) ∨
        (∃ target d rp, t = [.get api.api_path, .patch rp d,
            .wait target false, .get rp] ∧
          o = .ret true (api.getResp rp).json)) ∧
    (∀ (api : Api) (w : scaleway_function_namespace.Params) (o : Outcome) (t : List Event),
      api.check_mode = false →
      scaleway_function_namespace.present_strategy api w = some (o, t) →
        (∃ msg, o = .failJson msg ∧ t.head? = some (.get api.api_path)) ∨
        (∃ target, o = .ret false target ∧ t = [.get api.api_path]) ∨
        (∃ d cr rp, t = [.get api.api_path, .warn d, .post api.api_path d,
            .wait cr false, .get rp] ∧
          o = .ret true (api.getResp rp).json) ∨
        (∃ target d rp, t = [.get api.api_path, .patch rp d,
            .wait target false, .get rp] ∧
          o = .ret true (api.getResp rp).json)) ∧
    (∀ (api : Api) (w : scaleway_container.Params) (o : Outcome) (t : List Event),
      api.check_mode = false →
      scaleway_container.absent_strategy api w = some (o, t) →
        (∃ msg, o = .failJson msg ∧ t.head? = some (.get api.api_path)) ∨
        (o = .ret false (.dict []) ∧ t = [.get api.api_path]) ∨
        (∃ target dp, t = [.get api.api_path, .wait target true, .delete dp,
            .wait target false] ∧
          o = .ret true (api.deleteResp dp).json)) ∧
    (∀ (api : Api) (w : scaleway_function_namespace.Params) (o : Outcome) (t : List Event),
      api.check_mode = false →
      scaleway_function_namespace.absent_strategy api w = some (o, t) →
        (∃ msg, o = .failJson msg ∧ t.head? = some (.get api.api_path)) ∨
        (o = .ret false (.dict []) ∧ t = [.get api.api_path]) ∨
        (∃ target dp, t = [.get api.api_path, .wait target true, .delete dp,
            .wait target false] ∧
          o = .ret true (api.deleteResp dp).json)) := by
  refine ⟨?_, ?_, ?_, ?_⟩ <;> intro api w o t hcm h
  all_goals first
    | unfold scaleway_container.present_strategy at h
    | unfold scaleway_function_namespace.present_strategy at h
    | unfold scaleway_container.absent_strategy at h
    | unfold scaleway_function_namespace.absent_strategy at h
  all_goals dsimp only at h
  all_goals repeat' split at h
  all_goals try exact Option.noConfusion h
  all_goals try exact Bool.noConfusion (hcm.symm.trans (by assumption : api.check_mode = true))
  all_goals simp only [Option.some_inj, Prod.mk.injEq] at h
  all_goals obtain ⟨rfl, rfl⟩ := h
  all_goals first
    | exact Or.inl ⟨_, rfl, rfl⟩
    | exact Or.inr (Or.inl ⟨_, rfl, rfl⟩)
    | exact Or.inr (Or.inl ⟨rfl, rfl⟩)
    | exact Or.inr (Or.inr (Or.inl ⟨_, _, _, rfl, rfl⟩))
    | exact Or.inr (Or.inr (Or.inr ⟨_, _, _, rfl, rfl⟩))
    | exact Or.inr (Or.inr ⟨_, _, rfl, rfl⟩)

/-- Witness for C7: a concrete converged present run and a concrete deleting
absent run, classified by the theorem. -/
theorem C7_mutating_runs_ordered_witness :
    ((∃ msg, C7run.1 = .failJson msg ∧
        C7run.2.head? = some (.get C4api.api_path)) ∨
     (∃ target, C7run.1 = .ret false target ∧
        C7run.2 = [.get C4api.api_path]) ∨
     (∃ d cr rp, C7run.2 = [.get C4api.api_path, .warn d,
        .post C4api.api_path d, .wait cr false, .get rp] ∧
        C7run.1 = .ret true (C4api.getResp rp).json) ∨
     (∃ target d rp, C7run.2 = [.get C4api.api_path, .patch rp d,
        .wait target false, .get rp] ∧
        C7run.1 = .ret true (C4api.getResp rp).json)) ∧
    ((∃ msg, C7absentRun.1 = .failJson msg ∧
        C7absentRun.2.head? = some (.get C8api.api_path)) ∨
     (C7absentRun.1 = .ret false (.dict []) ∧
        C7absentRun.2 = [.get C8api.api_path]) ∨
     (∃ target dp, C7absentRun.2 = [.get C8api.api_path, .wait target true,
        .delete dp, .wait target false] ∧
        C7absentRun.1 = .ret true (C8api.deleteResp dp).json)) :=
  ⟨C7_mutating_runs_ordered.1 C4api sampleContainerParams
      C7run.1 C7run.2 rfl rfl,
    C7_mutating_runs_ordered.2.2.1 C8api sampleContainerParams
      C7absentRun.1 C7absentRun.2 rfl rfl⟩

/-- C8: the name-keyed lookup built from a listing keeps, for each name,
exactly the resource that occurs last in the listed order; and in every run
of either module in which the lookup resolves the wished name to a resource,
every subsequent HTTP request (read, update, delete) beyond the listing GET
is addressed to that resource's id. -/
theorem C8_duplicate_names_last_wins :
    (∀ (xs : List Value) (l : List (Value × Value)) (k : Value),
      buildLookup xs = some l →
      pyDictLast l k =
        xs.reverse.find? (fun fn => fn.get? "name" == some k)) ∧
    (∀ (api : Api) (w : scaleway_container.Params) (o : Outcome)
        (t : List Event) (xs : List Value) (l : List (Value × Value))
        (target idv : Value),
      (api.getResp api.api_path).ok = true →
      (api.getResp api.api_path).json.get? "containers" = some (.list xs) →
      buildLookup xs = some l →
      pyDictLast l (.str w.name) = some target →
      target.get? "id" = some idv →
      scaleway_container.present_strategy api w = some (o, t) →
      ∀ e ∈ t, ∀ pa, e.path? = some pa →
        pa = api.api_path ∨ pa = api.api_path ++ "/" ++ idv.pyStr) ∧
    (∀ (api : Api) (w : scaleway_container.Params) (o : Outcome)
        (t : List Event) (xs : List Value) (l : List (Value × Value))
        (target idv : Value),
      (api.getResp api.api_path).ok = true →
      (api.getResp api.api_path).json.get? "containers" = some (.list xs) →
      buildLookup xs = some l →
      pyDictLast l (.str w.name) = some target →
      target.get? "id" = some idv →
      scaleway_container.absent_strategy api w = some (o, t) →
      ∀ e ∈ t, ∀ pa, e.path? = some pa →
        pa = api.api_path ∨ pa = api.api_path ++ "/" ++ idv.pyStr) ∧
    (∀ (api : Api) (w : scaleway_function_namespace.Params) (o : Outcome)
        (t : List Event) (xs : List Value) (l : List (Value × Value))
        (target idv : Value),
      (api.getResp api.api_path).ok = true →
      (api.getResp api.api_path).json.get? "namespaces" = some (.list xs) →
      buildLookup xs = some l →
      pyDictLast l (.str w.name) = some target →
      target.get? "id" = some idv →
      scaleway_function_namespace.present_strategy api w = some (o, t) →
      ∀ e ∈ t, ∀ pa, e.path? = some pa →
        pa = api.api_path ∨ pa = api.api_path ++ "/" ++ idv.pyStr) ∧
    (∀ (api : Api) (w : scaleway_function_namespace.Params) (o : Outcome)
        (t : List Event) (xs : List Value) (l : List (Value × Value))
        (target idv : Value),
      (api.getResp api.api_path).ok = true →
      (api.getResp api.api_path).json.get? "namespaces" = some (.list xs) →
      buildLookup xs = some l →
      pyDictLast l (.str w.name) = some target →
      target.get? "id" = some idv →
      scaleway_function_namespace.absent_strategy api w = some (o, t) →
      ∀ e ∈ t, ∀ pa, e.path? = some pa →
        pa = api.api_path ∨ pa = api.api_path ++ "/" ++ idv.pyStr) := by
  refine ⟨?_, ?_, ?_, ?_, ?_⟩
  · intro xs
    induction xs with
    | nil =>
        intro l k h
        simp only [buildLookup, Option.some_inj] at h
        subst h
        simp [pyDictLast]
    | cons x xs ih =>
        intro l k h
        simp only [buildLookup] at h
        rcases hx : x.get? "name" with _ | n <;> rw [hx] at h
        · exact Option.noConfusion h
        · rcases hxs : buildLookup xs with _ | l' <;> rw [hxs] at h
          · exact Option.noConfusion h
          · simp only [Option.some_inj] at h
            subst h
            have ihl := ih l' k hxs
            simp only [pyDictLast, List.reverse_cons, List.find?_append] at *
            rcases hfind : List.find?
                (fun p => p.1 == k) l'.reverse with _ | pr <;>
              rw [hfind] at ihl <;> simp only [hfind, Option.or, Option.map] at *
            · simp only [List.find?_cons, List.find?_nil]
              rw [← ihl]
              rcases hnk : (n == k) with _ | _
              · simp [hnk, hx]
              · simp [hnk, hx]
            · simp [← ihl]
  all_goals intro api w o t xs l target idv hok hcs hbl hpd hid h
  all_goals try
    (have hfetch : fetch_all_resources api "namespaces" = some (.ok xs) := by
      unfold fetch_all_resources
      simp [hok, hcs])
  all_goals first
    | unfold scaleway_container.present_strategy at h
    | unfold scaleway_container.absent_strategy at h
    | unfold scaleway_function_namespace.present_strategy at h
    | unfold scaleway_function_namespace.absent_strategy at h
  all_goals dsimp only at h
  all_goals first
    | simp only [hfetch, hbl, hpd, hid] at h
    | simp [hok, hcs, hbl, hpd, hid] at h
  all_goals repeat' split at h
  all_goals try exact Option.noConfusion h
  all_goals simp only [Option.some_inj, Prod.mk.injEq] at h
  all_goals obtain ⟨rfl, rfl⟩ := h
  all_goals intro e he pa hpa
  all_goals simp only [List.mem_cons, List.not_mem_nil, or_false] at he
  all_goals rcases he with rfl | rfl | rfl | rfl | rfl
  all_goals simp only [Event.path?] at hpa
  all_goals try exact Option.noConfusion hpa
  all_goals simp only [Option.some_inj] at hpa
  all_goals subst hpa
  all_goals first
    | exact Or.inl rfl
    | exact Or.inr rfl

/-- Witness for C8: the last-wins lookup applied to the concrete
two-duplicate listing, and the concrete duplicate-name absent run whose
DELETE is addressed to the id of the last duplicate, `rid2`. -/
theorem C8_duplicate_names_last_wins_witness :
    pyDictLast [(.str "reg", C8first), (.str "reg", C8second)] (.str "reg") =
      [C8first, C8second].reverse.find?
        (fun fn => fn.get? "name" == some (.str "reg")) ∧
    (C8api.api_path ++ "/" ++ "rid2" = C8api.api_path ∨
      C8api.api_path ++ "/" ++ "rid2" = C8api.api_path ++ "/" ++ "rid2") :=
  ⟨C8_duplicate_names_last_wins.1 [C8first, C8second]
      [(.str "reg", C8first), (.str "reg", C8second)] (.str "reg") rfl,
    C8_duplicate_names_last_wins.2.2.1 C8api sampleContainerParams
      C7absentRun.1 C7absentRun.2 [C8first, C8second]
      [(.str "reg", C8first), (.str "reg", C8second)] C8second (.str "rid2")
      rfl rfl rfl rfl rfl rfl
      (.delete (C8api.api_path ++ "/" ++ "rid2")) (by decide)
      (C8api.api_path ++ "/" ++ "rid2") rfl⟩

/-- Looking a key up in a dict from which that key was filtered out misses. -/
theorem get?_dict_filter_ne (kvs : List (String × Value)) (k : String) :
    (Value.dict (kvs.filter (fun q => q.1 != k))).get? k = none := by
  have hfind : List.find? (fun p => p.1 == k)
      (kvs.filter (fun q => q.1 != k)) = none := by
    rw [List.find?_eq_none]
    intro x hx
    simp only [List.mem_filter, bne_iff_ne, ne_eq] at hx
    simp [hx.2]
  simp [Value.get?, hfind]

/-- C10: the container module's payload carries the accepted `redeploy`
parameter, but the payload POSTed on the creation path never contains a
`redeploy` key. -/
theorem C10_redeploy_not_posted :
    (∀ w : scaleway_container.Params,
      ((scaleway_container.payload_from_wished_cn w).find?
        (fun q => q.1 == "redeploy")).map (·.2) = some w.redeploy) ∧
    (∀ (api : Api) (w : scaleway_container.Params) (o : Outcome)
        (t : List Event) (p : String) (d : Value),
      api.check_mode = false →
      scaleway_container.present_strategy api w = some (o, t) →
      Event.post p d ∈ t → d.get? "redeploy" = none) := by
  constructor
  · intro w
    rfl
  · intro api w o t p d hcm h hmem
    unfold scaleway_container.present_strategy at h
    dsimp only at h
    repeat' split at h
    all_goals try exact Option.noConfusion h
    all_goals try exact Bool.noConfusion (hcm.symm.trans (by assumption : api.check_mode = true))
    all_goals simp only [Option.some_inj, Prod.mk.injEq] at h
    all_goals obtain ⟨rfl, rfl⟩ := h
    all_goals simp at hmem
    all_goals obtain ⟨rfl, rfl⟩ := hmem
    all_goals exact get?_dict_filter_ne _ _

/-- Witness for C10: in a concrete creation run the POSTed payload has no
`redeploy` key. -/
theorem C10_redeploy_not_posted_witness :
    (Value.dict ((scaleway_container.payload_from_wished_cn
        sampleContainerParams).filter
      (fun q => q.1 != "redeploy"))).get? "redeploy" = none :=
  C10_redeploy_not_posted.2 C10api sampleContainerParams C10run.1 C10run.2
    (scaleway_container.api_path "fr-par")
    (.dict ((scaleway_container.payload_from_wished_cn
      sampleContainerParams).filter (fun q => q.1 != "redeploy")))
    rfl rfl (by decide)

/-- A successful `fetch_all_resources` implies the listing GET was 2xx. -/
theorem fetch_all_resources_ok (api : Api) (k : String) (xs : List Value)
    (h : fetch_all_resources api k = some (.ok xs)) :
    (api.getResp api.api_path).ok = true := by
  unfold fetch_all_resources at h
  dsimp only at h
  split at h
  · exact absurd h (by simp)
  · next hok =>
      revert hok
      cases (api.getResp api.api_path).ok <;> simp

/-- C2 (amended): every checked HTTP call that answers non-2xx fails the
module immediately with the descriptive message built from that response —
the listing GET, creation POST, update PATCH and DELETE of the mutating
modules, and both the listing GET and the per-resource read GET of the two
info modules; and conversely, whenever a mutating strategy returns a result
(rather than failing), its listing GET and every POST, PATCH and DELETE it
issued were 2xx.  The one unchecked call is the final re-read GET after a
successful create or update (see the counterexample). -/
theorem C2_amended_non2xx_responses_fail :
    ((∀ (api : Api) (w : scaleway_container.Params) (ch : Bool) (s : Value)
        (t : List Event),
      scaleway_container.present_strategy api w = some (.ret ch s, t) →
        (api.getResp api.api_path).ok = true ∧
        (∀ p d, Event.post p d ∈ t → (api.postResp p d).ok = true) ∧
        (∀ p d, Event.patch p d ∈ t → (api.patchResp p d).ok = true) ∧
        (∀ p, Event.delete p ∈ t → (api.deleteResp p).ok = true)) ∧
    (∀ (api : Api) (w : scaleway_container.Params) (ch : Bool) (s : Value)
        (t : List Event),
      scaleway_container.absent_strategy api w = some (.ret ch s, t) →
        (api.getResp api.api_path).ok = true ∧
        (∀ p d, Event.post p d ∈ t → (api.postResp p d).ok = true) ∧
        (∀ p d, Event.patch p d ∈ t → (api.patchResp p d).ok = true) ∧
        (∀ p, Event.delete p ∈ t → (api.deleteResp p).ok = true)) ∧
    (∀ (api : Api) (w : scaleway_function_namespace.Params) (ch : Bool) (s : Value)
        (t : List Event),
      scaleway_function_namespace.present_strategy api w = some (.ret ch s, t) →
        (api.getResp api.api_path).ok = true ∧
        (∀ p d, Event.post p d ∈ t → (api.postResp p d).ok = true) ∧
        (∀ p d, Event.patch p d ∈ t → (api.patchResp p d).ok = true) ∧
        (∀ p, Event.delete p ∈ t → (api.deleteResp p).ok = true)) ∧
    (∀ (api : Api) (w : scaleway_function_namespace.Params) (ch : Bool) (s : Value)
        (t : List Event),
      scaleway_function_namespace.absent_strategy api w = some (.ret ch s, t) →
        (api.getResp api.api_path).ok = true ∧
        (∀ p d, Event.post p d ∈ t → (api.postResp p d).ok = true) ∧
        (∀ p d, Event.patch p d ∈ t → (api.patchResp p d).ok = true) ∧
        (∀ p, Event.delete p ∈ t → (api.deleteResp p).ok = true))) ∧
    ((∀ (api : Api) (w : scaleway_container.Params) (m : Value),
      (api.getResp api.api_path).ok = false →
      (api.getResp api.api_path).json.get? "message" = some m →
      scaleway_container.present_strategy api w =
        some (.failJson ("Error getting containers [" ++
            toString (api.getResp api.api_path).status_code ++ ": " ++
            m.pyStr ++ "]"),
          [.get api.api_path])) ∧
    (∀ (api : Api) (w : scaleway_container.Params) (m : Value),
      (api.getResp api.api_path).ok = false →
      (api.getResp api.api_path).json.get? "message" = some m →
      scaleway_container.absent_strategy api w =
        some (.failJson ("Error getting containers [" ++
            toString (api.getResp api.api_path).status_code ++ ": " ++
            m.pyStr ++ "]"),
          [.get api.api_path])) ∧
    (∀ (api : Api) (w : scaleway_container.Params) (xs : List Value)
        (l : List (Value × Value)) (d m : Value),
      api.check_mode = false →
      (api.getResp api.api_path).ok = true →
      (api.getResp api.api_path).json.get? "containers" = some (.list xs) →
      buildLookup xs = some l →
      pyDictLast l (.str w.name) = none →
      d = .dict ((scaleway_container.payload_from_wished_cn w).filter
        (fun q => q.1 != "redeploy")) →
      (api.postResp api.api_path d).ok = false →
      (api.postResp api.api_path d).json.get? "message" = some m →
      scaleway_container.present_strategy api w =
        some (.failJson ("Error during container creation: " ++
            (api.postResp api.api_path d).info_msg ++ ": '" ++ m.pyStr ++
            "' (" ++ (api.postResp api.api_path d).json.pyStr ++ ")"),
          [.get api.api_path, .warn d, .post api.api_path d])) ∧
    (∀ (api : Api) (w : scaleway_container.Params) (xs : List Value)
        (l : List (Value × Value)) (target idv : Value)
        (pp : List (String × Value)) (m : Value),
      api.check_mode = false →
      (api.getResp api.api_path).ok = true →
      (api.getResp api.api_path).json.get? "containers" = some (.list xs) →
      buildLookup xs = some l →
      pyDictLast l (.str w.name) = some target →
      target.get? "id" = some idv →
      pp = resource_attributes_should_be_changed target
        (scaleway_container.payload_from_wished_cn w)
        scaleway_container.VERIFIABLE_MUTABLE_ATTRIBUTES
        scaleway_container.MUTABLE_ATTRIBUTES →
      pp.isEmpty = false →
      (api.patchResp (api.api_path ++ "/" ++ idv.pyStr) (.dict pp)).ok = false →
      (api.patchResp (api.api_path ++ "/" ++ idv.pyStr) (.dict pp)).json.get?
        "message" = some m →
      scaleway_container.present_strategy api w =
        some (.failJson ("Error during container attributes update: [" ++
            toString (api.patchResp (api.api_path ++ "/" ++ idv.pyStr)
              (.dict pp)).status_code ++ ": " ++ m.pyStr ++ "]"),
          [.get api.api_path,
           .patch (api.api_path ++ "/" ++ idv.pyStr) (.dict pp)])) ∧
    (∀ (api : Api) (w : scaleway_container.Params) (xs : List Value)
        (l : List (Value × Value)) (target idv : Value) (dp : String),
      api.check_mode = false →
      (api.getResp api.api_path).ok = true →
      (api.getResp api.api_path).json.get? "containers" = some (.list xs) →
      buildLookup xs = some l →
      pyDictLast l (.str w.name) = some target →
      target.get? "id" = some idv →
      dp = api.api_path ++ "/" ++ idv.pyStr →
      (api.deleteResp dp).ok = false →
      scaleway_container.absent_strategy api w =
        some (.failJson ("Error deleting container [" ++
            toString (api.deleteResp dp).status_code ++ ": " ++
            (api.deleteResp dp).json.pyStr ++ "]"),
          [.get api.api_path, .wait target true, .delete dp])) ∧
    (∀ (api : Api) (w : scaleway_function_namespace.Params),
      (api.getResp api.api_path).ok = false →
      scaleway_function_namespace.present_strategy api w =
        some (.failJson ("Error getting namespaces [" ++
            toString (api.getResp api.api_path).status_code ++ "]"),
          [.get api.api_path])) ∧
    (∀ (api : Api) (w : scaleway_function_namespace.Params),
      (api.getResp api.api_path).ok = false →
      scaleway_function_namespace.absent_strategy api w =
        some (.failJson ("Error getting namespaces [" ++
            toString (api.getResp api.api_path).status_code ++ "]"),
          [.get api.api_path])) ∧
    (∀ (api : Api) (w : scaleway_function_namespace.Params) (xs : List Value)
        (l : List (Value × Value)) (d m : Value),
      api.check_mode = false →
      (api.getResp api.api_path).ok = true →
      (api.getResp api.api_path).json.get? "namespaces" = some (.list xs) →
      buildLookup xs = some l →
      pyDictLast l (.str w.name) = none →
      d = .dict (scaleway_function_namespace.payload_from_wished_fn w) →
      (api.postResp api.api_path d).ok = false →
      (api.postResp api.api_path d).json.get? "message" = some m →
      scaleway_function_namespace.present_strategy api w =
        some (.failJson ("Error during function namespace creation: " ++
            (api.postResp api.api_path d).info_msg ++ ": '" ++ m.pyStr ++
            "' (" ++ (api.postResp api.api_path d).json.pyStr ++ ")"),
          [.get api.api_path, .warn d, .post api.api_path d])) ∧
    (∀ (api : Api) (w : scaleway_function_namespace.Params) (xs : List Value)
        (l : List (Value × Value)) (target idv : Value)
        (pp : List (String × Value)) (m : Value),
      api.check_mode = false →
      (api.getResp api.api_path).ok = true →
      (api.getResp api.api_path).json.get? "namespaces" = some (.list xs) →
      buildLookup xs = some l →
      pyDictLast l (.str w.name) = some target →
      target.get? "id" = some idv →
      pp = resource_attributes_should_be_changed target
        (scaleway_function_namespace.payload_from_wished_fn w)
        scaleway_function_namespace.VERIFIABLE_MUTABLE_ATTRIBUTES
        scaleway_function_namespace.MUTABLE_ATTRIBUTES →
      pp.isEmpty = false →
      (api.patchResp (api.api_path ++ "/" ++ idv.pyStr) (.dict pp)).ok = false →
      (api.patchResp (api.api_path ++ "/" ++ idv.pyStr) (.dict pp)).json.get?
        "message" = some m →
      scaleway_function_namespace.present_strategy api w =
        some (.failJson
            ("Error during function namespace attributes update: [" ++
             toString (api.patchResp (api.api_path ++ "/" ++ idv.pyStr)
               (.dict pp)).status_code ++ ": " ++ m.pyStr ++ "]"),
          [.get api.api_path,
           .patch (api.api_path ++ "/" ++ idv.pyStr) (.dict pp)])) ∧
    (∀ (api : Api) (w : scaleway_function_namespace.Params) (xs : List Value)
        (l : List (Value × Value)) (target idv : Value) (dp : String),
      api.check_mode = false →
      (api.getResp api.api_path).ok = true →
      (api.getResp api.api_path).json.get? "namespaces" = some (.list xs) →
      buildLookup xs = some l →
      pyDictLast l (.str w.name) = some target →
      target.get? "id" = some idv →
      dp = api.api_path ++ "/" ++ idv.pyStr →
      (api.deleteResp dp).ok = false →
      scaleway_function_namespace.absent_strategy api w =
        some (.failJson ("Error deleting function namespace [" ++
            toString (api.deleteResp dp).status_code ++ ": " ++
            (api.deleteResp dp).json.pyStr ++ "]"),
          [.get api.api_path, .wait target true, .delete dp])) ∧
    (∀ (api : Api) (w : scaleway_container_registry_info.Params) (m : Value),
      (api.getResp api.api_path).ok = false →
      (api.getResp api.api_path).json.get? "message" = some m →
      scaleway_container_registry_info.info_strategy api w =
        some (.failJson ("Error getting container registries [" ++
            toString (api.getResp api.api_path).status_code ++ ": " ++
            m.pyStr ++ "]"),
          [.get api.api_path])) ∧
    (∀ (api : Api) (w : scaleway_container_registry_info.Params)
        (xs : List Value) (l : List (Value × Value)) (target idv : Value)
        (rp : String) (m : Value),
      (api.getResp api.api_path).ok = true →
      (api.getResp api.api_path).json.get? "namespaces" = some (.list xs) →
      buildLookup xs = some l →
      pyDictLast l (.str w.name) = some target →
      target.get? "id" = some idv →
      rp = api.api_path ++ "/" ++ idv.pyStr →
      (api.getResp rp).ok = false →
      (api.getResp rp).json.get? "message" = some m →
      scaleway_container_registry_info.info_strategy api w =
        some (.failJson ("Error during container registry lookup: " ++
            (api.getResp rp).info_msg ++ ": '" ++ m.pyStr ++ "' (" ++
            (api.getResp rp).json.pyStr ++ ")"),
          [.get api.api_path, .get rp])) ∧
    (∀ (api : Api) (w : scaleway_function_namespace_info.Params) (m : Value),
      (api.getResp api.api_path).ok = false →
      (api.getResp api.api_path).json.get? "message" = some m →
      scaleway_function_namespace_info.info_strategy api w =
        some (.failJson ("Error getting function namespaces [" ++
            toString (api.getResp api.api_path).status_code ++ ": " ++
            m.pyStr ++ "]"),
          [.get api.api_path])) ∧
    (∀ (api : Api) (w : scaleway_function_namespace_info.Params)
        (xs : List Value) (l : List (Value × Value)) (target idv : Value)
        (rp : String) (m : Value),
      (api.getResp api.api_path).ok = true →
      (api.getResp api.api_path).json.get? "namespaces" = some (.list xs) →
      buildLookup xs = some l →
      pyDictLast l (.str w.name) = some target →
      target.get? "id" = some idv →
      rp = api.api_path ++ "/" ++ idv.pyStr →
      (api.getResp rp).ok = false →
      (api.getResp rp).json.get? "message" = some m →
      scaleway_function_namespace_info.info_strategy api w =
        some (.failJson ("Error during function namespace lookup: " ++
            (api.getResp rp).info_msg ++ ": '" ++ m.pyStr ++ "' (" ++
            (api.getResp rp).json.pyStr ++ ")"),
          [.get api.api_path, .get rp]))) := by
  constructor
  · refine ⟨?_, ?_, ?_, ?_⟩ <;> intro api w ch s t h
    all_goals first
      | unfold scaleway_container.present_strategy at h
      | unfold scaleway_container.absent_strategy at h
      | unfold scaleway_function_namespace.present_strategy at h
      | unfold scaleway_function_namespace.absent_strategy at h
    all_goals dsimp only at h
    all_goals repeat' split at h
    all_goals try exact Option.noConfusion h
    all_goals simp only [Option.some_inj, Prod.mk.injEq] at h
    all_goals obtain ⟨h1, rfl⟩ := h
    all_goals try exact Outcome.noConfusion h1
    all_goals rw [Outcome.ret.injEq] at h1
    all_goals obtain ⟨rfl, rfl⟩ := h1
    all_goals try have hgetok := fetch_all_resources_ok _ _ _ (by assumption)
    all_goals refine ⟨?_, fun p d hm => ?_, fun p d hm => ?_, fun p hm => ?_⟩
    all_goals simp_all
  · refine ⟨?_, ?_, ?_, ?_, ?_, ?_, ?_, ?_, ?_, ?_, ?_, ?_, ?_, ?_⟩
    · intro api w m hok hm
      unfold scaleway_container.present_strategy
      simp [hok, hm]
    · intro api w m hok hm
      unfold scaleway_container.absent_strategy
      simp [hok, hm]
    · intro api w xs l d m hcm hok hcs hbl hpd hd hpok hm
      subst hd
      unfold scaleway_container.present_strategy
      simp [hcm, hok, hcs, hbl, hpd, hpok, hm]
    · intro api w xs l target idv pp m hcm hok hcs hbl hpd hid hpp hne hpok hm
      subst hpp
      unfold scaleway_container.present_strategy
      simp [hcm, hok, hcs, hbl, hpd, hid, hne, hpok, hm]
    · intro api w xs l target idv dp hcm hok hcs hbl hpd hid hdp hdok
      subst hdp
      unfold scaleway_container.absent_strategy
      simp [hcm, hok, hcs, hbl, hpd, hid, hdok]
    · intro api w hok
      have hfetch : fetch_all_resources api "namespaces" =
          some (.error ("Error getting namespaces [" ++
            toString (api.getResp api.api_path).status_code ++ "]")) := by
        unfold fetch_all_resources
        simp [hok]
      unfold scaleway_function_namespace.present_strategy
      simp [hfetch]
    · intro api w hok
      have hfetch : fetch_all_resources api "namespaces" =
          some (.error ("Error getting namespaces [" ++
            toString (api.getResp api.api_path).status_code ++ "]")) := by
        unfold fetch_all_resources
        simp [hok]
      unfold scaleway_function_namespace.absent_strategy
      simp [hfetch]
    · intro api w xs l d m hcm hok hns hbl hpd hd hpok hm
      subst hd
      have hfetch : fetch_all_resources api "namespaces" = some (.ok xs) := by
        unfold fetch_all_resources
        simp [hok, hns]
      unfold scaleway_function_namespace.present_strategy
      simp [hcm, hfetch, hbl, hpd, hpok, hm]
    · intro api w xs l target idv pp m hcm hok hns hbl hpd hid hpp hne hpok hm
      subst hpp
      have hfetch : fetch_all_resources api "namespaces" = some (.ok xs) := by
        unfold fetch_all_resources
        simp [hok, hns]
      unfold scaleway_function_namespace.present_strategy
      simp [hcm, hfetch, hbl, hpd, hid, hne, hpok, hm]
    · intro api w xs l target idv dp hcm hok hns hbl hpd hid hdp hdok
      subst hdp
      have hfetch : fetch_all_resources api "namespaces" = some (.ok xs) := by
        unfold fetch_all_resources
        simp [hok, hns]
      unfold scaleway_function_namespace.absent_strategy
      simp [hcm, hfetch, hbl, hpd, hid, hdok]
    · intro api w m hok hm
      unfold scaleway_container_registry_info.info_strategy
      simp [hok, hm]
    · intro api w xs l target idv rp m hok hns hbl hpd hid hrp hrok hm
      subst hrp
      unfold scaleway_container_registry_info.info_strategy
      simp [hok, hns, hbl, hpd, hid, hrok, hm]
    · intro api w m hok hm
      unfold scaleway_function_namespace_info.info_strategy
      simp [hok, hm]
    · intro api w xs l target idv rp m hok hns hbl hpd hid hrp hrok hm
      subst hrp
      unfold scaleway_function_namespace_info.info_strategy
      simp [hok, hns, hbl, hpd, hid, hrok, hm]

/-- Witness for the amended C2: a concrete converged run (listing GET 2xx, no
mutating call), and a concrete run against a failing backend in which the
non-2xx listing GET makes the container module fail immediately with the
descriptive message. -/
theorem C2_amended_non2xx_responses_fail_witness :
    ((C4api.getResp C4api.api_path).ok = true ∧
    (∀ p d, Event.post p d ∈ [Event.get C4api.api_path] →
      (C4api.postResp p d).ok = true) ∧
    (∀ p d, Event.patch p d ∈ [Event.get C4api.api_path] →
      (C4api.patchResp p d).ok = true) ∧
    (∀ p, Event.delete p ∈ [Event.get C4api.api_path] →
      (C4api.deleteResp p).ok = true)) ∧
    scaleway_container.present_strategy C2failApi sampleContainerParams =
      some (.failJson "Error getting containers [500: boom]",
        [.get C2failApi.api_path]) :=
  ⟨C2_amended_non2xx_responses_fail.1.1 C4api sampleContainerParams false
      convergedContainer [.get C4api.api_path] rfl,
    C2_amended_non2xx_responses_fail.2.1 C2failApi sampleContainerParams
      (.str "boom") rfl rfl⟩

/-- Counterexample to C2 as stated: after a successful PATCH the container
module re-reads the resource, and when that final GET answers non-2xx the
strategy still returns a result built from the non-2xx body instead of
failing. -/
theorem C2_counterexample_final_read_unchecked :
    (scaleway_container.present_strategy C2api sampleContainerParams).map
        Prod.fst =
      some (.ret true (.dict [("message", .str "boom")])) ∧
    (C2api.getResp (scaleway_container.api_path "fr-par" ++ "/" ++ "rid")).ok
      = false ∧
    (C2api.getResp (scaleway_container.api_path "fr-par" ++ "/" ++ "rid")).json
      = .dict [("message", .str "boom")] :=
  ⟨rfl, rfl, rfl⟩

/-- C1: evaluation at the failing input.  The container module's
`SENSITIVE_ATTRIBUTES` is a plain string (missing trailing comma), so
iterating it redacts only one-character keys: the module returns the
`secret_environment_variables` attribute unredacted.  The function-namespace
module, whose constant is a genuine tuple, redacts it as documented. -/
theorem C1_secret_not_redacted :
    (scaleway_container.core C1containerBackend false C1containerParams).map
        (fun r =>
          match r.1 with
          | .exitJson _ _ v => v.get? "secret_environment_variables"
          | .failJson _ => none) =
      some (some C1secret) ∧
    C1secret ≠ sensitiveValueMarker ∧
    (scaleway_function_namespace.core C1fnBackend false C1fnParams).map
        (fun r =>
          match r.1 with
          | .exitJson _ _ v => v.get? "secret_environment_variables"
          | .failJson _ => none) =
      some (some sensitiveValueMarker) :=
  ⟨rfl, by decide, rfl⟩
